import Mathlib

/-!
Shallow embedding of the `code_your_own_pandas_pipeline` repository
(`processing.py`, `aggregations.py`, `calculations.py`).

A DataFrame is modelled as a list of column labels together with a list of
rows, each row an association list from column label to cell value.  Cell
values cover the fragment the pipeline manipulates: strings, rational
numbers (pandas integer and float columns), calendar dates, the NaN/missing
marker (`null`), and the two infinities produced by float division.

Pandas sorts group keys and pivot labels; no property below depends on row
or column order, and groups/pivot keys are materialised here in first
appearance order instead.
-/

set_option maxRecDepth 100000

namespace PandasPipeline

/-- Calendar date, as produced by `pd.to_datetime`. -/
structure YMDDate where
  year : Nat
  month : Nat
  day : Nat
deriving DecidableEq, Repr

/-- Cell values of the modelled dataframe fragment.  `null` stands for both
missing data and float NaN (pandas identifies the two); `inf`/`ninf` are the
float infinities produced by dividing a non-zero number by zero. -/
inductive Value where
  | str (s : String)
  | num (q : ℚ)
  | date (d : YMDDate)
  | null
  | inf
  | ninf
deriving DecidableEq, Repr

/-- Row of a dataframe: association list from column label to cell value. -/
abbrev Row := List (String × Value)

/-- Lookup of a cell by column label (first matching entry). -/
def rowGet : Row → String → Option Value
  | [], _ => none
  | (c, v) :: rest, c' => if c = c' then some v else rowGet rest c'

/-- Removal of the first entry with the given column label. -/
def eraseKey : Row → String → Row
  | [], _ => []
  | (c, v) :: rest, c' => if c = c' then rest else (c, v) :: eraseKey rest c'

/-- Dataframe: ordered column labels and rows. -/
structure DataFrame where
  cols : List String
  rows : List Row
deriving DecidableEq, Repr

/-- Embedding of `df.loc[:, cs]`: restrict to the listed columns, in the
listed order; `KeyError` (here `none`) if any is absent. -/
def selectCols (cs : List String) (df : DataFrame) : Option DataFrame :=
  if ∀ c ∈ cs, c ∈ df.cols then
    some ⟨cs, df.rows.map (fun r => cs.map (fun c => (c, (rowGet r c).getD .null)))⟩
  else none

/-- Embedding of `df.drop(columns=col)`. -/
def dropColumn (df : DataFrame) (col : String) : DataFrame :=
  ⟨df.cols.erase col, df.rows.map (fun r => eraseKey r col)⟩

/-- Embedding of column assignment `df[name] = f(row)`: overwrites the column
if the label already exists, otherwise appends it on the right. -/
def addColumn (df : DataFrame) (name : String) (f : Row → Value) : DataFrame :=
  if name ∈ df.cols then
    ⟨df.cols, df.rows.map (fun r => r.map (fun p => if p.1 = name then (p.1, f r) else p))⟩
  else
    ⟨df.cols ++ [name], df.rows.map (fun r => r ++ [(name, f r)])⟩

/-- Month abbreviations understood by `strptime`'s `%b` directive
(matched case-insensitively, as CPython does). -/
def monthAbbrevs : List String :=
  ["jan", "feb", "mar", "apr", "may", "jun", "jul", "aug", "sep", "oct", "nov", "dec"]

/-- Month number of a three-letter abbreviation, if recognised. -/
def monthOfAbbrev (s : String) : Option Nat :=
  (monthAbbrevs.findIdx? (fun m => decide (m = s.toLower))).map (· + 1)

/-- Leap-year test of the Gregorian calendar. -/
def leapYear (y : Nat) : Bool :=
  decide ((y % 4 = 0 ∧ y % 100 ≠ 0) ∨ y % 400 = 0)

/-- Number of days in a month. -/
def daysInMonth (y m : Nat) : Nat :=
  if m = 2 then (if leapYear y then 29 else 28)
  else if m ∈ [4, 6, 9, 11] then 30
  else 31

/-- Embedding of `datetime.strptime(s, "%d%b%Y")`: two-digit day,
three-letter month abbreviation, four-digit year, with the day validated
against the month's length. -/
def parseCompactDate (s : String) : Option YMDDate :=
  if s.length = 9 then
    match (s.take 2).toNat?, monthOfAbbrev ((s.drop 2).take 3), (s.drop 5).toNat? with
    | some d, some m, some y =>
        if 1 ≤ d ∧ d ≤ daysInMonth y m then some ⟨y, m, d⟩ else none
    | _, _, _ => none
  else none

/-- Column list selected by `tidy_practice_level_data`. -/
def requiredColumns : List String :=
  ["APPOINTMENT_MONTH_START_DATE", "GP_CODE", "HCP_TYPE", "APPT_MODE",
   "NATIONAL_CATEGORY", "TIME_BETWEEN_BOOK_AND_APPT", "COUNT_OF_APPOINTMENTS",
   "APPT_STATUS"]

/-- Parsing of one date cell: `pd.to_datetime(-, format="%d%b%Y")` raises
(`none`) unless the cell is text in the compact format. -/
def parseDateCell : Value → Option Value
  | .str s => (parseCompactDate s).map .date
  | _ => none

/-- Per-row action of the date conversion in `tidy_practice_level_data`. -/
def tidyRow (r : Row) : Option Row :=
  r.mapM (fun p =>
    if p.1 = "APPOINTMENT_MONTH_START_DATE" then
      (parseDateCell p.2).map (fun v => (p.1, v))
    else some p)

/-- Embedding of `tidy_practice_level_data`: select the 8 required columns
(`KeyError` if any is missing), then convert the month-start column from
compact text to a date (`ParseError` on any unparseable cell). -/
def tidy_practice_level_data (df : DataFrame) : Option DataFrame := do
  let sel ← selectCols requiredColumns df
  let rows ← sel.rows.mapM tidyRow
  return ⟨sel.cols, rows⟩

/-- Join key of the merge stage. -/
def mergeKey : String := "GP_CODE"

/-- Embedding of `pd.merge(left=practice, right=mapping, on="GP_CODE",
indicator=True)` with the default `how="inner"`: one output row per pair of
input rows agreeing on the key, carrying the left row, the right row minus
the key column, and the `_merge` indicator — always `"both"`, because an
inner join keeps matched rows only.  `KeyError` (`none`) if either side
lacks the key column. -/
def innerMergeWithIndicator (left right : DataFrame) (key : String) : Option DataFrame :=
  if key ∈ left.cols ∧ key ∈ right.cols then
    some ⟨left.cols ++ right.cols.filter (fun c => decide (c ≠ key)) ++ ["_merge"],
      left.rows.flatMap (fun lr =>
        (right.rows.filter (fun rr => decide (rowGet rr key = rowGet lr key))).map
          (fun rr => lr ++ eraseKey rr key ++ [("_merge", Value.str "both")]))⟩
  else none

/-- Embedding of `merged_df[col].value_counts().get(v, 0)`. -/
def value_count (df : DataFrame) (col : String) (v : Value) : Nat :=
  (df.rows.filter (fun r => decide (rowGet r col = some v))).length

/-- Warning message logged by `check_merge` for one bad side. -/
def badMergeMessage (count : Nat) (side : String) : String :=
  "There are " ++ toString count ++ " '" ++ side ++ "' rows in the merged data"

/-- Embedding of `check_merge`: for each of the sides `left_only` and
`right_only`, count the rows whose `_merge` indicator carries that side and
log a warning when the count is non-zero; then drop the `_merge` column and
return the table.  The warnings are returned as data so that "a warning is
raised" is a statement about the model. -/
def check_merge (df : DataFrame) : DataFrame × List String :=
  (dropColumn df "_merge",
   (["left_only", "right_only"].filter
      (fun side => decide (value_count df "_merge" (.str side) ≠ 0))).map
     (fun side => badMergeMessage (value_count df "_merge" (.str side)) side))

/-- Embedding of `merge_mapping_data_with_practice_level_data`: inner merge
with indicator, piped through `check_merge`. -/
def merge_mapping_data_with_practice_level_data
    (practice_level_data mapping_data : DataFrame) : Option (DataFrame × List String) :=
  (innerMergeWithIndicator practice_level_data mapping_data mergeKey).map check_merge

/-- Module-level constant `AGG_COLS` of `aggregations.py`. -/
def AGG_COLS : List String :=
  ["GP_NAME", "SUPPLIER", "PCN_NAME", "SUB_ICB_LOCATION_NAME", "ICB_NAME",
   "REGION_NAME", "HCP_TYPE", "APPT_MODE", "NATIONAL_CATEGORY",
   "TIME_BETWEEN_BOOK_AND_APPT"]

/-- Default pivot index: the month-start date plus the ten dimensions. -/
def defaultPivotIndex : List String :=
  "APPOINTMENT_MONTH_START_DATE" :: AGG_COLS

/-- Default status rename map of `pivot_practice_level_data`. -/
def defaultRename : List (String × String) :=
  [("DNA", "DID_NOT_ATTEND"), ("Attended", "ATTENDED"), ("Unknown", "UNKNOWN")]

/-- Application of a rename map to one column label. -/
def applyRename (m : List (String × String)) (c : String) : String :=
  match m.find? (fun p => decide (p.1 = c)) with
  | some p => p.2
  | none => c

/-- Embedding of `df.rename(columns=m)`. -/
def renameColumns (m : List (String × String)) (df : DataFrame) : DataFrame :=
  ⟨df.cols.map (applyRename m),
   df.rows.map (fun r => r.map (fun p => (applyRename m p.1, p.2)))⟩

/-- Index tuple of a row under the given index columns. -/
def keyOfRow (keys : List String) (r : Row) : List Value :=
  keys.map (fun c => (rowGet r c).getD .null)

/-- Index tuples of the rows, in first appearance order. -/
def pivotKeys (df : DataFrame) (index : List String) : List (List Value) :=
  (df.rows.map (keyOfRow index)).dedup

/-- The (index tuple, spread-column value) pairs of the rows, whose
duplication makes `df.pivot` raise. -/
def pivotPairs (df : DataFrame) (index : List String) (columns : String) :
    List (List Value × Value) :=
  df.rows.map (fun r => (keyOfRow index r, (rowGet r columns).getD .null))

/-- Distinct values of the spread column, in first appearance order. -/
def statusValues (df : DataFrame) (columns : String) : List Value :=
  (df.rows.map (fun r => (rowGet r columns).getD .null)).dedup

/-- Column label carried by a spread value (pandas uses the value itself as
label; only string statuses occur in this pipeline). -/
def colNameOfValue : Value → String
  | .str s => s
  | .num q => toString q
  | .date d => toString d.year ++ "-" ++ toString d.month ++ "-" ++ toString d.day
  | .null => "nan"
  | .inf => "inf"
  | .ninf => "-inf"

/-- Cell of the pivoted table at a given index tuple and spread value: the
value-column entry of the input row realising the pair, `null` when the
combination is absent. -/
def pivotCell (df : DataFrame) (index : List String) (columns values : String)
    (k : List Value) (s : Value) : Value :=
  match df.rows.find? (fun r =>
      decide (keyOfRow index r = k ∧ (rowGet r columns).getD .null = s)) with
  | some r => (rowGet r values).getD .null
  | none => .null

/-- Embedding of `df.pivot(index=index, columns=columns, values=values)`
followed by `reset_index()`: `KeyError` (`none`) if a named column is
absent, `ValueError` (`none`) if some (index tuple, spread value) pair is
duplicated; otherwise one row per distinct index tuple, the index flattened
into ordinary columns, one column per distinct spread value, absent
combinations `null`. -/
def pivotTable (df : DataFrame) (index : List String) (columns values : String) :
    Option DataFrame :=
  if (∀ c ∈ index, c ∈ df.cols) ∧ columns ∈ df.cols ∧ values ∈ df.cols then
    if (pivotPairs df index columns).Nodup then
      some ⟨index ++ (statusValues df columns).map colNameOfValue,
        (pivotKeys df index).map (fun k =>
          index.zip k ++ (statusValues df columns).map
            (fun s => (colNameOfValue s, pivotCell df index columns values k s)))⟩
    else none
  else none

/-- Python's falsiness idiom `if not arg: arg = default` on an optional
list argument: both `None` and `[]` are replaced by the default. -/
def effArg {α : Type} (default : List α) : Option (List α) → List α
  | none => default
  | some [] => default
  | some l => l

/-- Embedding of `pivot_practice_level_data`: substitute the default index
and rename map when the argument is `None` or empty (Python's falsiness
test `if not index`), pivot, reset the index, and rename the status
columns. -/
def pivot_practice_level_data (df : DataFrame) (index : Option (List String))
    (columns values : String) (rename_columns : Option (List (String × String))) :
    Option DataFrame :=
  (pivotTable df (effArg defaultPivotIndex index) columns values).map
    (renameColumns (effArg defaultRename rename_columns))

/-- Numeric reading of a cell as pandas `sum` sees it: `skipna` treats a
missing/NaN cell as contributing nothing, i.e. zero. -/
def numOrZero : Option Value → ℚ
  | some (.num q) => q
  | _ => 0

/-- Sum of one column over a list of rows, NaN skipped, empty sum zero. -/
def groupSum (rs : List Row) (c : String) : ℚ :=
  (rs.map (fun r => numOrZero (rowGet r c))).sum

/-- Test that some grouping key of a row is missing (such rows are dropped
by pandas `groupby`, whose default is `dropna=True`). -/
def keyHasNull (keys : List String) (r : Row) : Bool :=
  keys.any (fun c => decide ((rowGet r c).getD .null = .null))

/-- Columns aggregated by `summarize_monthly_aggregate_appointments`. -/
def aggTargets : List String := ["ATTENDED", "DID_NOT_ATTEND", "UNKNOWN"]

/-- Grouping keys of the aggregation stage: month-start date plus the
requested columns. -/
def summaryKeys (aggCols : List String) : List String :=
  "APPOINTMENT_MONTH_START_DATE" :: aggCols

/-- Rows surviving the group-by: pandas drops rows with a missing grouping
key (`dropna=True` is the default). -/
def keptRows (df : DataFrame) (keys : List String) : List Row :=
  df.rows.filter (fun r => !(keyHasNull keys r))

/-- The group of kept rows sharing a key tuple. -/
def groupOf (df : DataFrame) (keys : List String) (k : List Value) : List Row :=
  (keptRows df keys).filter (fun r => decide (keyOfRow keys r = k))

/-- Per-group sum of one status column. -/
def statusSum (df : DataFrame) (keys : List String) (k : List Value) (c : String) : ℚ :=
  groupSum (groupOf df keys k) c

/-- Distinct key tuples of the kept rows, in first appearance order. -/
def groupKeysOf (df : DataFrame) (keys : List String) : List (List Value) :=
  ((keptRows df keys).map (keyOfRow keys)).dedup

/-- One aggregated output row: the key cells followed by the three status
sums. -/
def aggRow (df : DataFrame) (keys : List String) (k : List Value) : Row :=
  keys.zip k ++ aggTargets.map (fun c => (c, Value.num (statusSum df keys k c)))

/-- Row-wise total appended by `calculate_total_appointments`. -/
def totalSum (df : DataFrame) (keys : List String) (k : List Value) : ℚ :=
  statusSum df keys k "ATTENDED" + statusSum df keys k "DID_NOT_ATTEND" +
    statusSum df keys k "UNKNOWN"

/-- Embedding of
`df.groupby(keys).agg({A: "sum", D: "sum", U: "sum"}).reset_index()` for the
three status columns: fails (`none`) if a key or target column is absent or
a target is itself a grouping key (pandas moves key columns into the index,
so aggregating one raises `KeyError`); drops rows with a missing key; one
output row per distinct key tuple with the three per-group sums. -/
def groupbySum (df : DataFrame) (keys : List String) : Option DataFrame :=
  if (∀ c ∈ keys, c ∈ df.cols) ∧ (∀ c ∈ aggTargets, c ∈ df.cols) ∧
      (∀ c ∈ aggTargets, c ∉ keys) then
    some ⟨keys ++ aggTargets, (groupKeysOf df keys).map (aggRow df keys)⟩
  else none

/-- Per-cell action of `df[cs] = df[cs].fillna(0)`: a missing/NaN cell of a
listed column becomes 0, everything else is untouched. -/
def fillZero (cs : List String) (lbl : String) (v : Value) : Value :=
  if lbl ∈ cs ∧ v = Value.null then Value.num 0 else v

/-- Embedding of `calculate_total_appointments`: substitute the three status
columns when the argument is falsy, fill their missing cells with 0
(`KeyError` if one is absent), then append `TOTAL_APPOINTMENTS` as their
row-wise `sum(axis=1)` (NaN skipped). -/
def calculate_total_appointments (df : DataFrame)
    (appointment_cols : Option (List String)) : Option DataFrame :=
  let cs := effArg aggTargets appointment_cols
  if ∀ c ∈ cs, c ∈ df.cols then
    let filled : DataFrame :=
      ⟨df.cols, df.rows.map (fun r => r.map (fun p => (p.1, fillZero cs p.1 p.2)))⟩
    some (addColumn filled "TOTAL_APPOINTMENTS" (fun r =>
      Value.num ((cs.map (fun c => numOrZero (rowGet r c))).sum)))
  else none

/-- Float division of two cells as pandas performs it: `a / 0` is NaN when
`a = 0` and a signed infinity otherwise; a NaN operand propagates. -/
def vdiv : Value → Value → Value
  | .num a, .num b =>
      if b = 0 then (if a = 0 then .null else if 0 < a then .inf else .ninf)
      else .num (a / b)
  | _, _ => .null

/-- One fully derived summary row: key cells, the three status sums, the
total, and the two rates. -/
def rateRow (df : DataFrame) (keys : List String) (k : List Value) : Row :=
  keys.zip k ++
    [("ATTENDED", Value.num (statusSum df keys k "ATTENDED")),
     ("DID_NOT_ATTEND", Value.num (statusSum df keys k "DID_NOT_ATTEND")),
     ("UNKNOWN", Value.num (statusSum df keys k "UNKNOWN")),
     ("TOTAL_APPOINTMENTS", Value.num (totalSum df keys k)),
     ("ATTENDED_RATE", vdiv (Value.num (statusSum df keys k "ATTENDED"))
        (Value.num (totalSum df keys k))),
     ("DID_NOT_ATTEND_RATE", vdiv (Value.num (statusSum df keys k "DID_NOT_ATTEND"))
        (Value.num (totalSum df keys k)))]

/-- Embedding of `calculate_attended_rate`:
`df["ATTENDED_RATE"] = df["ATTENDED"] / df["TOTAL_APPOINTMENTS"]`. -/
def calculate_attended_rate (df : DataFrame) : Option DataFrame :=
  if "ATTENDED" ∈ df.cols ∧ "TOTAL_APPOINTMENTS" ∈ df.cols then
    some (addColumn df "ATTENDED_RATE" (fun r =>
      vdiv ((rowGet r "ATTENDED").getD .null) ((rowGet r "TOTAL_APPOINTMENTS").getD .null)))
  else none

/-- Embedding of `calculate_did_not_attend_rate`:
`df["DID_NOT_ATTEND_RATE"] = df["DID_NOT_ATTEND"] / df["TOTAL_APPOINTMENTS"]`. -/
def calculate_did_not_attend_rate (df : DataFrame) : Option DataFrame :=
  if "DID_NOT_ATTEND" ∈ df.cols ∧ "TOTAL_APPOINTMENTS" ∈ df.cols then
    some (addColumn df "DID_NOT_ATTEND_RATE" (fun r =>
      vdiv ((rowGet r "DID_NOT_ATTEND").getD .null) ((rowGet r "TOTAL_APPOINTMENTS").getD .null)))
  else none

/-- Embedding of `calculate_appointment_columns`: the three-step pipe, in
source order — total, attended rate, did-not-attend rate. -/
def calculate_appointment_columns (df : DataFrame) : Option DataFrame := do
  let a ← calculate_total_appointments df none
  let b ← calculate_attended_rate a
  calculate_did_not_attend_rate b

/-- Embedding of `summarize_monthly_aggregate_appointments`: Python's
`if not agg_cols: agg_cols = []` maps both `None` and `[]` to `[]`; group by
the month-start date plus the requested columns, sum the three status
columns, and append the rate columns when the flag is set. -/
def summarize_monthly_aggregate_appointments (df : DataFrame)
    (agg_cols : Option (List String)) (add_rate_cols : Bool) : Option DataFrame := do
  let g ← groupbySum df (summaryKeys (agg_cols.getD []))
  if add_rate_cols then calculate_appointment_columns g else return g

/-- Insertion into a Python dict modelled as an association list: an
existing key is overwritten in place, a new key appended on the right. -/
def dictInsert (d : List (String × DataFrame)) (k : String) (v : DataFrame) :
    List (String × DataFrame) :=
  if k ∈ d.map Prod.fst then
    d.map (fun p => if p.1 = k then (k, v) else p)
  else d ++ [(k, v)]

/-- Embedding of `batch_summarize_monthly_aggregate_appointments`: the ten
default dimensions are substituted only when `agg_cols is None`; one
summary per dimension, grouped by `[month-start date, that dimension]`,
collected into a dict in iteration order. -/
def batch_summarize_monthly_aggregate_appointments (df : DataFrame)
    (agg_cols : Option (List String)) (add_rate_cols : Bool) :
    Option (List (String × DataFrame)) :=
  (match agg_cols with
    | none => AGG_COLS
    | some l => l).foldlM (fun acc c => do
      let s ← summarize_monthly_aggregate_appointments df (some [c]) add_rate_cols
      return dictInsert acc c s) []

/-! ### Concrete tables used by scenarios, counterexamples and witnesses -/

/-- The date 2021-01-01 as a cell. -/
def d0 : Value := .date ⟨2021, 1, 1⟩

/-- Columns of the §8 scenario input. -/
def c3cols : List String :=
  ["APPOINTMENT_MONTH_START_DATE", "GP_NAME", "REGION_NAME", "APPT_STATUS",
   "COUNT_OF_APPOINTMENTS"]

/-- One scenario row: date 2021-01-01, practice A, REGION1. -/
def c3row (status : String) (n : ℚ) : Row :=
  [("APPOINTMENT_MONTH_START_DATE", d0), ("GP_NAME", .str "A"),
   ("REGION_NAME", .str "REGION1"), ("APPT_STATUS", .str status),
   ("COUNT_OF_APPOINTMENTS", .num n)]

/-- Pivot index of the §8 scenario: date, practice, region. -/
def c3index : List String :=
  ["APPOINTMENT_MONTH_START_DATE", "GP_NAME", "REGION_NAME"]

/-- Scenario input with the literal status labels of the spec. -/
def c3specInput : DataFrame :=
  ⟨c3cols, [c3row "ATTENDED" 1, c3row "DID NOT ATTEND" 2, c3row "UNKNOWN" 3]⟩

/-- Scenario input with the status labels the pipeline's rename map
actually expects. -/
def c3codeInput : DataFrame :=
  ⟨c3cols, [c3row "Attended" 1, c3row "DNA" 2, c3row "Unknown" 3]⟩

/-- Pivot followed by month-only aggregation with rates, as in the
scenario. -/
def c3run (df : DataFrame) : Option DataFrame :=
  (pivot_practice_level_data df (some c3index) "APPT_STATUS"
      "COUNT_OF_APPOINTMENTS" none).bind
    (fun p => summarize_monthly_aggregate_appointments p none true)

/-- The single summary row the scenario describes: counts 1/2/3, total 6,
rates 1/6 and 2/6. -/
def c3expected : DataFrame :=
  ⟨["APPOINTMENT_MONTH_START_DATE", "ATTENDED", "DID_NOT_ATTEND", "UNKNOWN",
    "TOTAL_APPOINTMENTS", "ATTENDED_RATE", "DID_NOT_ATTEND_RATE"],
   [[("APPOINTMENT_MONTH_START_DATE", d0), ("ATTENDED", .num 1),
     ("DID_NOT_ATTEND", .num 2), ("UNKNOWN", .num 3),
     ("TOTAL_APPOINTMENTS", .num 6), ("ATTENDED_RATE", .num (1 / 6)),
     ("DID_NOT_ATTEND_RATE", .num (2 / 6))]]⟩

/-- Tidied appointment table whose practice code B has no mapping row. -/
def pEx : DataFrame :=
  ⟨["APPOINTMENT_MONTH_START_DATE", "GP_CODE", "COUNT_OF_APPOINTMENTS"],
   [[("APPOINTMENT_MONTH_START_DATE", d0), ("GP_CODE", .str "A"),
     ("COUNT_OF_APPOINTMENTS", .num 1)],
    [("APPOINTMENT_MONTH_START_DATE", d0), ("GP_CODE", .str "B"),
     ("COUNT_OF_APPOINTMENTS", .num 2)]]⟩

/-- Mapping table knowing only practice code A. -/
def mEx : DataFrame :=
  ⟨["GP_CODE", "GP_NAME"], [[("GP_CODE", .str "A"), ("GP_NAME", .str "Alpha")]]⟩

/-- Result of merging `pEx` with `mEx`: the matched rows only. -/
def mergedEx : DataFrame :=
  ⟨["APPOINTMENT_MONTH_START_DATE", "GP_CODE", "COUNT_OF_APPOINTMENTS", "GP_NAME"],
   [[("APPOINTMENT_MONTH_START_DATE", d0), ("GP_CODE", .str "A"),
     ("COUNT_OF_APPOINTMENTS", .num 1), ("GP_NAME", .str "Alpha")]]⟩

/-- Pivoted row with a known region. -/
def c8row1 : Row :=
  [("APPOINTMENT_MONTH_START_DATE", d0), ("REGION_NAME", .str "REGION1"),
   ("ATTENDED", .num 1), ("DID_NOT_ATTEND", .num 2), ("UNKNOWN", .num 3)]

/-- Pivoted row whose region is missing. -/
def c8row2 : Row :=
  [("APPOINTMENT_MONTH_START_DATE", d0), ("REGION_NAME", .null),
   ("ATTENDED", .num 4), ("DID_NOT_ATTEND", .num 5), ("UNKNOWN", .num 6)]

/-- Pivoted table whose REGION_NAME column contains a missing value. -/
def c8pt : DataFrame :=
  ⟨["APPOINTMENT_MONTH_START_DATE", "REGION_NAME", "ATTENDED", "DID_NOT_ATTEND",
    "UNKNOWN"],
   [c8row1, c8row2]⟩

/-- The single surviving summary row of `c8pt` under the REGION_NAME
dimension. -/
def c8srow : Row :=
  [("APPOINTMENT_MONTH_START_DATE", d0), ("REGION_NAME", .str "REGION1"),
   ("ATTENDED", .num 1), ("DID_NOT_ATTEND", .num 2), ("UNKNOWN", .num 3),
   ("TOTAL_APPOINTMENTS", .num 6), ("ATTENDED_RATE", .num (1 / 6)),
   ("DID_NOT_ATTEND_RATE", .num (2 / 6))]

/-- Summary produced for `c8pt` by the REGION_NAME dimension: the row with
the missing region has been dropped by the group-by. -/
def c8summary : DataFrame :=
  ⟨["APPOINTMENT_MONTH_START_DATE", "REGION_NAME", "ATTENDED", "DID_NOT_ATTEND",
    "UNKNOWN", "TOTAL_APPOINTMENTS", "ATTENDED_RATE", "DID_NOT_ATTEND_RATE"],
   [c8srow]⟩

/-- Closed form of the tidy stage's output on success: exactly the 8
required columns in their contracted order, the month-start column parsed
from compact text to a date, every other retained cell verbatim, one output
row per input row. -/
def tidyOutput (df : DataFrame) : DataFrame :=
  ⟨requiredColumns,
   df.rows.map (fun r => requiredColumns.map (fun c =>
     (c, if c = "APPOINTMENT_MONTH_START_DATE"
         then (parseDateCell ((rowGet r c).getD .null)).getD .null
         else (rowGet r c).getD .null)))⟩

/-- Raw appointment table with one extra column and a parseable date. -/
def rawEx : DataFrame :=
  ⟨"EXTRA" :: requiredColumns,
   [[("EXTRA", .str "x"), ("APPOINTMENT_MONTH_START_DATE", .str "01Sep2024"),
     ("GP_CODE", .str "A"), ("HCP_TYPE", .str "GP"), ("APPT_MODE", .str "F2F"),
     ("NATIONAL_CATEGORY", .str "NC"), ("TIME_BETWEEN_BOOK_AND_APPT", .str "Same Day"),
     ("COUNT_OF_APPOINTMENTS", .num 5), ("APPT_STATUS", .str "Attended")]]⟩

/-- Raw appointment table whose date text is not in the compact format. -/
def rawBadEx : DataFrame :=
  ⟨"EXTRA" :: requiredColumns,
   [[("APPOINTMENT_MONTH_START_DATE", .str "Sept 1, 2024")]]⟩

/-- Grouped (pre-rates) summary of `c8pt` by REGION_NAME. -/
def c9G : DataFrame :=
  ⟨["APPOINTMENT_MONTH_START_DATE", "REGION_NAME", "ATTENDED", "DID_NOT_ATTEND",
    "UNKNOWN"], [c8row1]⟩

/-- Summary-shaped table whose only row has every status count zero or
missing. -/
def c7df : DataFrame :=
  ⟨["ATTENDED", "DID_NOT_ATTEND", "UNKNOWN"],
   [[("ATTENDED", .null), ("DID_NOT_ATTEND", .num 0), ("UNKNOWN", .null)]]⟩

/-- Result of the rate-derivation pipe on `c7df`: total 0, both rates the
NaN marker. -/
def c7out : DataFrame :=
  ⟨["ATTENDED", "DID_NOT_ATTEND", "UNKNOWN", "TOTAL_APPOINTMENTS", "ATTENDED_RATE",
    "DID_NOT_ATTEND_RATE"],
   [[("ATTENDED", .num 0), ("DID_NOT_ATTEND", .num 0), ("UNKNOWN", .num 0),
     ("TOTAL_APPOINTMENTS", .num 0), ("ATTENDED_RATE", .null),
     ("DID_NOT_ATTEND_RATE", .null)]]⟩

/-! ### Theorems -/

/-- Helper: `mapM` succeeds pointwise. -/
theorem mapM_eq_some_of_forall {α β : Type} (f : α → Option β) (g : α → β) :
    ∀ l : List α, (∀ a ∈ l, f a = some (g a)) → l.mapM f = some (l.map g) := by
  intro l
  induction l with
  | nil => intro _; rfl
  | cons a t ih =>
      intro h
      rw [List.mapM_cons, h a (List.mem_cons_self _ _),
        ih fun x hx => h x (List.mem_cons_of_mem _ hx)]
      rfl

/-- Helper: `mapM` fails as soon as one element fails. -/
theorem mapM_eq_none_of_exists {α β : Type} (f : α → Option β) :
    ∀ l : List α, (∃ a ∈ l, f a = none) → l.mapM f = none := by
  intro l
  induction l with
  | nil => rintro ⟨a, ha, _⟩; cases ha
  | cons b t ih =>
      rintro ⟨a, ha, hfa⟩
      rw [List.mapM_cons]
      rcases List.mem_cons.mp ha with rfl | ha
      · rw [hfa]; rfl
      · cases hfb : f b
        · rfl
        · rw [ih ⟨a, ha, hfa⟩]; rfl

/-- Helper: the per-row date conversion succeeds when every date-labelled
cell parses, replacing exactly those cells by their parsed dates. -/
theorem tidyRow_eq_some : ∀ sr : Row,
    (∀ p ∈ sr, p.1 = "APPOINTMENT_MONTH_START_DATE" → (parseDateCell p.2).isSome) →
    tidyRow sr = some (sr.map (fun p =>
      (p.1, if p.1 = "APPOINTMENT_MONTH_START_DATE"
            then (parseDateCell p.2).getD .null else p.2))) := by
  intro sr
  induction sr with
  | nil => intro _; rfl
  | cons p t ih =>
      intro h
      obtain ⟨a, v⟩ := p
      have ht := ih fun q hq => h q (List.mem_cons_of_mem _ hq)
      rw [tidyRow] at ht ⊢
      rw [List.mapM_cons, ht]
      by_cases ha : a = "APPOINTMENT_MONTH_START_DATE"
      · obtain ⟨w, hw⟩ := Option.isSome_iff_exists.mp (h (a, v) (List.mem_cons_self _ _) ha)
        simp [ha, hw]
      · simp [ha]

/-- Helper: the per-row date conversion fails on a selected row whose date
cell does not parse. -/
theorem tidyRow_selRow_none (r : Row)
    (hbad : parseDateCell ((rowGet r "APPOINTMENT_MONTH_START_DATE").getD .null) = none) :
    tidyRow (requiredColumns.map (fun c => (c, (rowGet r c).getD .null))) = none := by
  rw [tidyRow]
  refine mapM_eq_none_of_exists _ _
    ⟨("APPOINTMENT_MONTH_START_DATE",
      (rowGet r "APPOINTMENT_MONTH_START_DATE").getD .null), ?_, ?_⟩
  · simp [requiredColumns]
  · simp [hbad]

/-- C5: on any raw table containing the 8 required columns with parseable
month-start text, the tidy stage returns exactly the 8 contracted columns,
the date column parsed to a calendar date, the row count unchanged and all
other retained values unchanged; if a required column is absent or any date
cell is unparseable, it returns nothing at all (no partial result). -/
theorem C5_tidy_contract :
    (∀ df : DataFrame,
      (∀ c ∈ requiredColumns, c ∈ df.cols) →
      (∀ r ∈ df.rows,
        (parseDateCell ((rowGet r "APPOINTMENT_MONTH_START_DATE").getD .null)).isSome) →
      tidy_practice_level_data df = some (tidyOutput df) ∧
      (tidyOutput df).cols = requiredColumns ∧
      (tidyOutput df).rows.length = df.rows.length) ∧
    (∀ df : DataFrame,
      ((¬ ∀ c ∈ requiredColumns, c ∈ df.cols) ∨
        ∃ r ∈ df.rows,
          parseDateCell ((rowGet r "APPOINTMENT_MONTH_START_DATE").getD .null) = none) →
      tidy_practice_level_data df = none) := by
  constructor
  · intro df hcols hpar
    refine ⟨?_, rfl, by simp [tidyOutput]⟩
    rw [tidy_practice_level_data]
    simp only [selectCols, if_pos hcols, Option.bind_eq_bind, Option.some_bind]
    rw [mapM_eq_some_of_forall tidyRow
      (fun sr => sr.map (fun p =>
        (p.1, if p.1 = "APPOINTMENT_MONTH_START_DATE"
              then (parseDateCell p.2).getD .null else p.2))) _ ?_]
    · simp only [Option.some_bind, List.map_map, tidyOutput]
      rfl
    · intro sr hsr
      rw [List.mem_map] at hsr
      obtain ⟨r, hr, rfl⟩ := hsr
      refine tidyRow_eq_some _ fun p hp hdate => ?_
      rw [List.mem_map] at hp
      obtain ⟨c, _, rfl⟩ := hp
      simp only at hdate
      subst hdate
      exact hpar r hr
  · intro df hfail
    rcases hfail with hcols | ⟨r, hr, hbad⟩
    · rw [tidy_practice_level_data]
      simp [selectCols, if_neg hcols]
    · rw [tidy_practice_level_data]
      by_cases hcols : ∀ c ∈ requiredColumns, c ∈ df.cols
      · simp only [selectCols, if_pos hcols, Option.bind_eq_bind, Option.some_bind]
        rw [mapM_eq_none_of_exists]
        · rfl
        · exact ⟨_, List.mem_map_of_mem _ hr, tidyRow_selRow_none r hbad⟩
      · simp [selectCols, if_neg hcols]

/-- C5 witness: the contract instantiated at a concrete raw table with one
extra column and one row (success half) and at a table with an unparseable
date (failure half). -/
theorem C5_tidy_contract_witness :
    (tidy_practice_level_data rawEx = some (tidyOutput rawEx) ∧
     (tidyOutput rawEx).cols = requiredColumns ∧
     (tidyOutput rawEx).rows.length = rawEx.rows.length) ∧
    tidy_practice_level_data rawBadEx = none :=
  ⟨C5_tidy_contract.1 rawEx (of_decide_eq_true (by with_unfolding_all rfl))
      (of_decide_eq_true (by with_unfolding_all rfl)),
   C5_tidy_contract.2 rawBadEx
      (Or.inr (of_decide_eq_true (by with_unfolding_all rfl)))⟩


/-- Helper: a lookup that succeeds on the first block is unaffected by an
appended block. -/
theorem rowGet_append_left (xs ys : Row) (c : String) (v : Value)
    (h : rowGet xs c = some v) : rowGet (xs ++ ys) c = some v := by
  induction xs with
  | nil => cases h
  | cons p t ih =>
      obtain ⟨a, w⟩ := p
      by_cases hac : a = c
      · rw [rowGet, if_pos hac] at h
        rw [List.cons_append, rowGet, if_pos hac]
        exact h
      · rw [rowGet, if_neg hac] at h
        rw [List.cons_append, rowGet, if_neg hac]
        exact ih h

/-- Helper: appending a single entry with a different label does not change
a lookup. -/
theorem rowGet_append_single_ne (r : Row) (a c : String) (x : Value) (h : a ≠ c) :
    rowGet (r ++ [(a, x)]) c = rowGet r c := by
  induction r with
  | nil => simp [rowGet, h]
  | cons p t ih =>
      obtain ⟨b, w⟩ := p
      by_cases hbc : b = c
      · rw [List.cons_append, rowGet, if_pos hbc, rowGet, if_pos hbc]
      · rw [List.cons_append, rowGet, if_neg hbc, rowGet, if_neg hbc]
        exact ih

/-- Helper: a label-preserving entry map commutes with lookup. -/
theorem rowGet_map_entry (f : String → Value → Value) (r : Row) (c : String) :
    rowGet (r.map (fun p => (p.1, f p.1 p.2))) c = (rowGet r c).map (f c) := by
  induction r with
  | nil => rfl
  | cons p t ih =>
      obtain ⟨a, v⟩ := p
      by_cases hac : a = c
      · subst hac
        rw [List.map_cons, rowGet, if_pos rfl, rowGet, if_pos rfl, Option.map_some']
      · rw [List.map_cons, rowGet, if_neg hac, rowGet, if_neg hac]
        exact ih

/-- Helper: reading the key columns of a row that starts with its zipped
key tuple recovers the tuple, when the key labels are distinct. -/
theorem keyOfRow_zip : ∀ (keys : List String) (k : List Value) (rest : Row),
    keys.Nodup → k.length = keys.length →
    keyOfRow keys (keys.zip k ++ rest) = k := by
  intro keys
  induction keys with
  | nil =>
      intro k rest _ hl
      cases k with
      | nil => rfl
      | cons v k' => cases hl
  | cons c t ih =>
      intro k rest hnd hl
      cases k with
      | nil => cases hl
      | cons v k' =>
          rw [List.nodup_cons] at hnd
          rw [List.length_cons, List.length_cons, Nat.add_right_cancel_iff] at hl
          rw [keyOfRow, List.map_cons]
          rw [List.zip_cons_cons, List.cons_append]
          congr 1
          · rw [rowGet, if_pos rfl]
            rfl
          · have step : ∀ c' ∈ t,
                (rowGet ((c, v) :: (t.zip k' ++ rest)) c').getD .null =
                  (rowGet (t.zip k' ++ rest) c').getD .null := by
              intro c' hc'
              have hne : c ≠ c' := by
                intro hcc
                subst hcc
                exact hnd.1 hc'
              rw [rowGet, if_neg hne]
            rw [List.map_congr_left step]
            exact ih k' rest hnd.2 hl

/-- Helper: when mapping `f` over a list yields no duplicates, filtering
the list by the image of a member isolates exactly that member. -/
theorem filter_eq_singleton_of_nodup_map {α β : Type} [DecidableEq β] (f : α → β) :
    ∀ l : List α, (l.map f).Nodup → ∀ a ∈ l,
      l.filter (fun x => decide (f x = f a)) = [a] := by
  intro l
  induction l with
  | nil => intro _ a ha; cases ha
  | cons b t ih =>
      intro hnd a ha
      rw [List.map_cons, List.nodup_cons] at hnd
      rw [List.filter_cons]
      rcases List.mem_cons.mp ha with rfl | ha
      · rw [if_pos (by simp)]
        have : t.filter (fun x => decide (f x = f a)) = [] := by
          refine List.filter_eq_nil_iff.mpr ?_
          intro x hx
          simp only [decide_eq_true_eq]
          exact fun hfx => hnd.1 (hfx ▸ List.mem_map_of_mem f hx)
        rw [this]
      · have hfb : ¬ f b = f a := fun h => hnd.1 (h ▸ List.mem_map_of_mem f ha)
        rw [if_neg (by simpa using hfb)]
        exact ih hnd.2 a ha

/-- Helper: a lookup skips a leading block whose labels all differ from the
key. -/
theorem rowGet_append_of_forall_ne (xs ys : Row) (c : String)
    (h : ∀ p ∈ xs, p.1 ≠ c) : rowGet (xs ++ ys) c = rowGet ys c := by
  induction xs with
  | nil => rfl
  | cons p t ih =>
      obtain ⟨a, v⟩ := p
      have ha : a ≠ c := h (a, v) (List.mem_cons_self _ _)
      simp only [List.cons_append, rowGet, if_neg ha]
      exact ih fun q hq => h q (List.mem_cons_of_mem _ hq)

/-- Helper: erasing a key passes over a leading block whose labels all
differ from it. -/
theorem eraseKey_append_of_forall_ne (xs ys : Row) (c : String)
    (h : ∀ p ∈ xs, p.1 ≠ c) : eraseKey (xs ++ ys) c = xs ++ eraseKey ys c := by
  induction xs with
  | nil => rfl
  | cons p t ih =>
      obtain ⟨a, v⟩ := p
      have ha : a ≠ c := h (a, v) (List.mem_cons_self _ _)
      simp only [List.cons_append, eraseKey, if_neg ha, List.cons.injEq, true_and]
      exact ih fun q hq => h q (List.mem_cons_of_mem _ hq)

/-- Helper: every entry surviving `eraseKey` was an entry of the row. -/
theorem mem_of_mem_eraseKey {c : String} {p : String × Value} :
    ∀ {r : Row}, p ∈ eraseKey r c → p ∈ r := by
  intro r
  induction r with
  | nil => intro hp; simp [eraseKey] at hp
  | cons q t ih =>
      obtain ⟨a, v⟩ := q
      intro hp
      by_cases hac : a = c
      · simp only [eraseKey, if_pos hac] at hp
        exact List.mem_cons_of_mem _ hp
      · simp only [eraseKey, if_neg hac] at hp
        rcases List.mem_cons.mp hp with hp | hp
        · simp [hp]
        · exact List.mem_cons_of_mem _ (ih hp)

/-- Helper: every row the inner merge emits carries the indicator value
`"both"`, provided neither input uses the label `_merge`. -/
theorem merged_row_indicator (p m : DataFrame)
    (hp : "_merge" ∉ p.cols) (hm : "_merge" ∉ m.cols)
    (hpr : ∀ r ∈ p.rows, ∀ q ∈ r, q.1 ∈ p.cols)
    (hmr : ∀ r ∈ m.rows, ∀ q ∈ r, q.1 ∈ m.cols)
    (row : Row)
    (hrow : row ∈ p.rows.flatMap (fun lr =>
      (m.rows.filter (fun rr => decide (rowGet rr mergeKey = rowGet lr mergeKey))).map
        (fun rr => lr ++ eraseKey rr mergeKey ++ [("_merge", Value.str "both")]))) :
    rowGet row "_merge" = some (Value.str "both") := by
  rw [List.mem_flatMap] at hrow
  obtain ⟨lr, hlr, hrow⟩ := hrow
  rw [List.mem_map] at hrow
  obtain ⟨rr, hrr, rfl⟩ := hrow
  have hrr' : rr ∈ m.rows := (List.mem_filter.mp hrr).1
  rw [rowGet_append_of_forall_ne]
  · simp [rowGet]
  · intro q hq
    rcases List.mem_append.mp hq with hq | hq
    · exact fun hc => hp (hc ▸ hpr lr hlr q hq)
    · exact fun hc => hm (hc ▸ hmr rr hrr' q (mem_of_mem_eraseKey hq))


/-- Helper: labels of the zipped key block lie among the key labels. -/
theorem zip_label_mem {keys : List String} {k : List Value} {p : String × Value}
    (hp : p ∈ keys.zip k) : p.1 ∈ keys := by
  obtain ⟨a, v⟩ := p
  exact (List.of_mem_zip hp).1

/-- Helper: a lookup passes over a first block in which it finds nothing. -/
theorem rowGet_append_of_none (xs ys : Row) (c : String)
    (h : rowGet xs c = none) : rowGet (xs ++ ys) c = rowGet ys c := by
  induction xs with
  | nil => rfl
  | cons p t ih =>
      obtain ⟨a, w⟩ := p
      by_cases hac : a = c
      · rw [rowGet, if_pos hac] at h
        cases h
      · rw [rowGet, if_neg hac] at h
        rw [List.cons_append, rowGet, if_neg hac]
        exact ih h

/-- Helper: `fillna(0)` does not change an aggregated row — its key cells
carry labels outside the three status columns and its status cells are
numbers. -/
theorem fill_aggRow (df : DataFrame) (keys : List String) (k : List Value)
    (h3 : ∀ c ∈ aggTargets, c ∉ keys) :
    (aggRow df keys k).map (fun p => (p.1, fillZero aggTargets p.1 p.2)) =
      aggRow df keys k := by
  rw [aggRow, List.map_append]
  refine congrArg₂ (· ++ ·) ?_ ?_
  · have hid : ∀ p ∈ keys.zip k,
        (fun p : String × Value => (p.1, fillZero aggTargets p.1 p.2)) p = p := by
      intro p hp
      obtain ⟨l, v⟩ := p
      have hnc : ¬ (l ∈ aggTargets ∧ v = Value.null) :=
        fun hc => h3 l hc.1 (zip_label_mem hp)
      simp [fillZero, hnc]
    exact (List.map_congr_left hid).trans (List.map_id' _)
  · rw [List.map_map]
    refine List.map_congr_left ?_
    intro c _
    simp [Function.comp, fillZero]

/-- Helper: the three status cells of an aggregated row. -/
theorem rowGet_aggRow (df : DataFrame) (keys : List String) (k : List Value)
    (h3 : ∀ c ∈ aggTargets, c ∉ keys) :
    rowGet (aggRow df keys k) "ATTENDED" =
      some (.num (statusSum df keys k "ATTENDED")) ∧
    rowGet (aggRow df keys k) "DID_NOT_ATTEND" =
      some (.num (statusSum df keys k "DID_NOT_ATTEND")) ∧
    rowGet (aggRow df keys k) "UNKNOWN" =
      some (.num (statusSum df keys k "UNKNOWN")) := by
  have hskip : ∀ c ∈ aggTargets, rowGet (aggRow df keys k) c =
      rowGet (aggTargets.map (fun c => (c, Value.num (statusSum df keys k c)))) c := by
    intro c hc
    rw [aggRow]
    refine rowGet_append_of_forall_ne _ _ c ?_
    intro p hp hpc
    exact h3 c hc (hpc ▸ zip_label_mem hp)
  refine ⟨?_, ?_, ?_⟩ <;>
    · rw [hskip _ (by simp [aggTargets])]
      simp [aggTargets, rowGet]

/-- Helper: an aggregated row has no cell labelled outside its key and
status columns. -/
theorem rowGet_aggRow_other (df : DataFrame) (keys : List String) (k : List Value)
    (c : String) (hc1 : c ∉ keys) (hc2 : c ∉ aggTargets) :
    rowGet (aggRow df keys k) c = none := by
  rw [aggRow]
  rw [rowGet_append_of_forall_ne _ _ c
    (fun p hp hpc => hc1 (hpc ▸ zip_label_mem hp))]
  simp only [aggTargets, List.mem_cons, List.not_mem_nil, or_false] at hc2
  push_neg at hc2
  simp [aggTargets, rowGet, Ne.symm hc2.1, Ne.symm hc2.2.1, Ne.symm hc2.2.2]

/-- Helper: the total step on an aggregated frame appends exactly the
`TOTAL_APPOINTMENTS` column, whose cells are the sums of the three status
cells. -/
theorem total_step (df : DataFrame) (keys : List String) (KS : List (List Value))
    (h3 : ∀ c ∈ aggTargets, c ∉ keys) (h4 : "TOTAL_APPOINTMENTS" ∉ keys) :
    calculate_total_appointments ⟨keys ++ aggTargets, KS.map (aggRow df keys)⟩ none =
      some ⟨(keys ++ aggTargets) ++ ["TOTAL_APPOINTMENTS"],
        KS.map (fun k => aggRow df keys k ++
          [("TOTAL_APPOINTMENTS", Value.num (totalSum df keys k))])⟩ := by
  have hTT : "TOTAL_APPOINTMENTS" ∉ aggTargets := by simp [aggTargets]
  simp only [calculate_total_appointments, effArg]
  rw [if_pos (show ∀ c ∈ aggTargets, c ∈ keys ++ aggTargets from
    fun c hc => List.mem_append_right _ hc)]
  rw [addColumn]
  rw [if_neg (show "TOTAL_APPOINTMENTS" ∉ keys ++ aggTargets by simp [h4, hTT])]
  have hfill : List.map (fun r => List.map (fun p => (p.1, fillZero aggTargets p.1 p.2)) r)
      (List.map (aggRow df keys) KS) = List.map (aggRow df keys) KS := by
    rw [List.map_map]
    exact List.map_congr_left (fun k _ => fill_aggRow df keys k h3)
  refine congrArg some ?_
  show DataFrame.mk _ _ = _
  rw [hfill]
  refine congrArg (DataFrame.mk _) ?_
  rw [List.map_map]
  refine List.map_congr_left ?_
  intro k _
  simp only [Function.comp_apply]
  obtain ⟨hA, hD, hU⟩ := rowGet_aggRow df keys k h3
  congr 3
  simp only [aggTargets, List.map_cons, List.map_nil, hA, hD, hU, numOrZero,
    List.sum_cons, List.sum_nil, totalSum]
  congr 1
  ring

/-- Helper: the attended-rate step appends exactly the `ATTENDED_RATE`
column, the quotient of the attended cell by the total cell. -/
theorem attended_step (df : DataFrame) (keys : List String) (KS : List (List Value))
    (h3 : ∀ c ∈ aggTargets, c ∉ keys) (h4 : "TOTAL_APPOINTMENTS" ∉ keys)
    (h5 : "ATTENDED_RATE" ∉ keys) :
    calculate_attended_rate ⟨(keys ++ aggTargets) ++ ["TOTAL_APPOINTMENTS"],
        KS.map (fun k => aggRow df keys k ++
          [("TOTAL_APPOINTMENTS", Value.num (totalSum df keys k))])⟩ =
      some ⟨((keys ++ aggTargets) ++ ["TOTAL_APPOINTMENTS"]) ++ ["ATTENDED_RATE"],
        KS.map (fun k => (aggRow df keys k ++
          [("TOTAL_APPOINTMENTS", Value.num (totalSum df keys k))]) ++
          [("ATTENDED_RATE", vdiv (Value.num (statusSum df keys k "ATTENDED"))
            (Value.num (totalSum df keys k)))])⟩ := by
  rw [calculate_attended_rate]
  rw [if_pos ⟨by simp [aggTargets], by simp⟩]
  rw [addColumn]
  rw [if_neg (show "ATTENDED_RATE" ∉ (keys ++ aggTargets) ++ ["TOTAL_APPOINTMENTS"] by
    simp [h5, aggTargets])]
  refine congrArg some (congrArg (DataFrame.mk _) ?_)
  rw [List.map_map]
  refine List.map_congr_left ?_
  intro k _
  simp only [Function.comp_apply]
  obtain ⟨hA, _, _⟩ := rowGet_aggRow df keys k h3
  have hgA : rowGet (aggRow df keys k ++
      [("TOTAL_APPOINTMENTS", Value.num (totalSum df keys k))]) "ATTENDED" =
      some (.num (statusSum df keys k "ATTENDED")) := rowGet_append_left _ _ _ _ hA
  have hgT : rowGet (aggRow df keys k ++
      [("TOTAL_APPOINTMENTS", Value.num (totalSum df keys k))]) "TOTAL_APPOINTMENTS" =
      some (.num (totalSum df keys k)) := by
    rw [rowGet_append_of_none _ _ _
      (rowGet_aggRow_other df keys k _ h4 (by simp [aggTargets]))]
    simp [rowGet]
  rw [hgA, hgT]
  rfl

/-- Helper: the did-not-attend-rate step appends exactly the
`DID_NOT_ATTEND_RATE` column, the quotient of the did-not-attend cell by
the total cell. -/
theorem dna_step (df : DataFrame) (keys : List String) (KS : List (List Value))
    (h3 : ∀ c ∈ aggTargets, c ∉ keys) (h4 : "TOTAL_APPOINTMENTS" ∉ keys)
    (h6 : "DID_NOT_ATTEND_RATE" ∉ keys) :
    calculate_did_not_attend_rate ⟨((keys ++ aggTargets) ++ ["TOTAL_APPOINTMENTS"]) ++
        ["ATTENDED_RATE"],
        KS.map (fun k => (aggRow df keys k ++
          [("TOTAL_APPOINTMENTS", Value.num (totalSum df keys k))]) ++
          [("ATTENDED_RATE", vdiv (Value.num (statusSum df keys k "ATTENDED"))
            (Value.num (totalSum df keys k)))])⟩ =
      some ⟨(((keys ++ aggTargets) ++ ["TOTAL_APPOINTMENTS"]) ++ ["ATTENDED_RATE"]) ++
          ["DID_NOT_ATTEND_RATE"],
        KS.map (fun k => ((aggRow df keys k ++
          [("TOTAL_APPOINTMENTS", Value.num (totalSum df keys k))]) ++
          [("ATTENDED_RATE", vdiv (Value.num (statusSum df keys k "ATTENDED"))
            (Value.num (totalSum df keys k)))]) ++
          [("DID_NOT_ATTEND_RATE", vdiv (Value.num (statusSum df keys k "DID_NOT_ATTEND"))
            (Value.num (totalSum df keys k)))])⟩ := by
  rw [calculate_did_not_attend_rate]
  rw [if_pos ⟨by simp [aggTargets], by simp⟩]
  rw [addColumn]
  rw [if_neg (show "DID_NOT_ATTEND_RATE" ∉
      ((keys ++ aggTargets) ++ ["TOTAL_APPOINTMENTS"]) ++ ["ATTENDED_RATE"] by
    simp [h6, aggTargets])]
  refine congrArg some (congrArg (DataFrame.mk _) ?_)
  rw [List.map_map]
  refine List.map_congr_left ?_
  intro k _
  simp only [Function.comp_apply]
  obtain ⟨_, hD, _⟩ := rowGet_aggRow df keys k h3
  have hgD : rowGet ((aggRow df keys k ++
      [("TOTAL_APPOINTMENTS", Value.num (totalSum df keys k))]) ++
      [("ATTENDED_RATE", vdiv (Value.num (statusSum df keys k "ATTENDED"))
        (Value.num (totalSum df keys k)))]) "DID_NOT_ATTEND" =
      some (.num (statusSum df keys k "DID_NOT_ATTEND")) :=
    rowGet_append_left _ _ _ _ (rowGet_append_left _ _ _ _ hD)
  have hgT : rowGet ((aggRow df keys k ++
      [("TOTAL_APPOINTMENTS", Value.num (totalSum df keys k))]) ++
      [("ATTENDED_RATE", vdiv (Value.num (statusSum df keys k "ATTENDED"))
        (Value.num (totalSum df keys k)))]) "TOTAL_APPOINTMENTS" =
      some (.num (totalSum df keys k)) := by
    refine rowGet_append_left _ _ _ _ ?_
    rw [rowGet_append_of_none _ _ _
      (rowGet_aggRow_other df keys k _ h4 (by simp [aggTargets]))]
    simp [rowGet]
  rw [hgD, hgT]
  rfl

/-- Helper: the rate-derivation pipe on an aggregated frame appends the
total column and then the two rate columns, producing fully derived summary
rows. -/
theorem calc_on_aggRows (df : DataFrame) (keys : List String) (KS : List (List Value))
    (h3 : ∀ c ∈ aggTargets, c ∉ keys)
    (h4 : "TOTAL_APPOINTMENTS" ∉ keys)
    (h5 : "ATTENDED_RATE" ∉ keys)
    (h6 : "DID_NOT_ATTEND_RATE" ∉ keys) :
    calculate_appointment_columns ⟨keys ++ aggTargets, KS.map (aggRow df keys)⟩ =
      some ⟨keys ++ aggTargets ++ ["TOTAL_APPOINTMENTS"] ++ ["ATTENDED_RATE"] ++
          ["DID_NOT_ATTEND_RATE"],
        KS.map (rateRow df keys)⟩ := by
  rw [calculate_appointment_columns]
  rw [total_step df keys KS h3 h4]
  simp only [Option.bind_eq_bind, Option.some_bind]
  rw [attended_step df keys KS h3 h4 h5]
  simp only [Option.some_bind]
  rw [dna_step df keys KS h3 h4 h6]
  refine congrArg some (congrArg (DataFrame.mk _) ?_)
  refine List.map_congr_left ?_
  intro k _
  simp [rateRow, aggRow, aggTargets, List.append_assoc]

/-- Helper: full shape of the aggregation stage with rate columns
enabled. -/
theorem summarize_true_eq (pt : DataFrame) (aggCols : List String)
    (h1 : ∀ c ∈ summaryKeys aggCols, c ∈ pt.cols)
    (h2 : ∀ c ∈ aggTargets, c ∈ pt.cols)
    (h3 : ∀ c ∈ aggTargets, c ∉ summaryKeys aggCols)
    (h4 : "TOTAL_APPOINTMENTS" ∉ summaryKeys aggCols)
    (h5 : "ATTENDED_RATE" ∉ summaryKeys aggCols)
    (h6 : "DID_NOT_ATTEND_RATE" ∉ summaryKeys aggCols) :
    summarize_monthly_aggregate_appointments pt (some aggCols) true =
      some ⟨summaryKeys aggCols ++ aggTargets ++ ["TOTAL_APPOINTMENTS"] ++
          ["ATTENDED_RATE"] ++ ["DID_NOT_ATTEND_RATE"],
        (groupKeysOf pt (summaryKeys aggCols)).map (rateRow pt (summaryKeys aggCols))⟩ := by
  rw [summarize_monthly_aggregate_appointments]
  simp only [Option.getD_some]
  rw [groupbySum, if_pos ⟨h1, h2, h3⟩]
  simp only [Option.bind_eq_bind, Option.some_bind, if_true]
  exact calc_on_aggRows pt (summaryKeys aggCols) (groupKeysOf pt (summaryKeys aggCols))
    h3 h4 h5 h6

/-- Helper: shape of the aggregation stage with rate columns disabled. -/
theorem summarize_false_eq (pt : DataFrame) (aggCols : List String)
    (h1 : ∀ c ∈ summaryKeys aggCols, c ∈ pt.cols)
    (h2 : ∀ c ∈ aggTargets, c ∈ pt.cols)
    (h3 : ∀ c ∈ aggTargets, c ∉ summaryKeys aggCols) :
    summarize_monthly_aggregate_appointments pt (some aggCols) false =
      some ⟨summaryKeys aggCols ++ aggTargets,
        (groupKeysOf pt (summaryKeys aggCols)).map (aggRow pt (summaryKeys aggCols))⟩ := by
  rw [summarize_monthly_aggregate_appointments]
  simp only [Option.getD_some]
  rw [groupbySum, if_pos ⟨h1, h2, h3⟩]
  simp only [Option.bind_eq_bind, Option.some_bind, if_false]
  rfl

/-- Helper: the six derived cells of a fully derived summary row. -/
theorem rowGet_rateRow (df : DataFrame) (keys : List String) (k : List Value)
    (h3 : ∀ c ∈ aggTargets, c ∉ keys)
    (h4 : "TOTAL_APPOINTMENTS" ∉ keys)
    (h5 : "ATTENDED_RATE" ∉ keys)
    (h6 : "DID_NOT_ATTEND_RATE" ∉ keys) :
    rowGet (rateRow df keys k) "ATTENDED" =
      some (.num (statusSum df keys k "ATTENDED")) ∧
    rowGet (rateRow df keys k) "DID_NOT_ATTEND" =
      some (.num (statusSum df keys k "DID_NOT_ATTEND")) ∧
    rowGet (rateRow df keys k) "UNKNOWN" =
      some (.num (statusSum df keys k "UNKNOWN")) ∧
    rowGet (rateRow df keys k) "TOTAL_APPOINTMENTS" =
      some (.num (totalSum df keys k)) ∧
    rowGet (rateRow df keys k) "ATTENDED_RATE" =
      some (vdiv (.num (statusSum df keys k "ATTENDED")) (.num (totalSum df keys k))) ∧
    rowGet (rateRow df keys k) "DID_NOT_ATTEND_RATE" =
      some (vdiv (.num (statusSum df keys k "DID_NOT_ATTEND"))
        (.num (totalSum df keys k))) := by
  have hskip : ∀ c : String, c ∉ keys → rowGet (rateRow df keys k) c =
      rowGet [("ATTENDED", Value.num (statusSum df keys k "ATTENDED")),
        ("DID_NOT_ATTEND", Value.num (statusSum df keys k "DID_NOT_ATTEND")),
        ("UNKNOWN", Value.num (statusSum df keys k "UNKNOWN")),
        ("TOTAL_APPOINTMENTS", Value.num (totalSum df keys k)),
        ("ATTENDED_RATE", vdiv (Value.num (statusSum df keys k "ATTENDED"))
          (Value.num (totalSum df keys k))),
        ("DID_NOT_ATTEND_RATE", vdiv (Value.num (statusSum df keys k "DID_NOT_ATTEND"))
          (Value.num (totalSum df keys k)))] c := by
    intro c hc
    rw [rateRow]
    exact rowGet_append_of_forall_ne _ _ c (fun p hp hpc => hc (hpc ▸ zip_label_mem hp))
  refine ⟨?_, ?_, ?_, ?_, ?_, ?_⟩
  · rw [hskip _ (h3 "ATTENDED" (by simp [aggTargets]))]
    simp [rowGet]
  · rw [hskip _ (h3 "DID_NOT_ATTEND" (by simp [aggTargets]))]
    simp [rowGet]
  · rw [hskip _ (h3 "UNKNOWN" (by simp [aggTargets]))]
    simp [rowGet]
  · rw [hskip _ h4]
    simp [rowGet]
  · rw [hskip _ h5]
    simp [rowGet]
  · rw [hskip _ h6]
    simp [rowGet]

/-- Helper: every row contributing to a group is a row of the input
table. -/
theorem mem_of_mem_groupOf {df : DataFrame} {keys : List String} {k : List Value}
    {r : Row} (hr : r ∈ groupOf df keys k) : r ∈ df.rows :=
  (List.mem_filter.mp (List.mem_filter.mp hr).1).1

/-- Helper: a per-group status sum over non-negative inputs is
non-negative. -/
theorem statusSum_nonneg (df : DataFrame) (keys : List String) (k : List Value)
    (c : String) (hnn : ∀ r ∈ df.rows, 0 ≤ numOrZero (rowGet r c)) :
    0 ≤ statusSum df keys k c := by
  rw [statusSum, groupSum]
  refine List.sum_nonneg ?_
  intro x hx
  rw [List.mem_map] at hx
  obtain ⟨r, hr, rfl⟩ := hx
  exact hnn r (mem_of_mem_groupOf hr)

/-- C1 (amended): the merge stage performs an inner join, so the
`_merge` indicator of every surviving row is `"both"`, the left-only and
right-only counts are always zero, and no join-health warning is ever
raised — even when a practice code appears on only one side; the returned
table consists of exactly the row pairs whose practice code matched in
both inputs and never contains the indicator column. -/
theorem C1_merge_inner_drops_unmatched_without_warning
    (p m : DataFrame)
    (hpk : mergeKey ∈ p.cols) (hmk : mergeKey ∈ m.cols)
    (hp : "_merge" ∉ p.cols) (hm : "_merge" ∉ m.cols)
    (hpr : ∀ r ∈ p.rows, ∀ q ∈ r, q.1 ∈ p.cols)
    (hmr : ∀ r ∈ m.rows, ∀ q ∈ r, q.1 ∈ m.cols) :
    merge_mapping_data_with_practice_level_data p m =
      some (⟨p.cols ++ m.cols.filter (fun c => decide (c ≠ mergeKey)),
        p.rows.flatMap (fun lr =>
          (m.rows.filter (fun rr => decide (rowGet rr mergeKey = rowGet lr mergeKey))).map
            (fun rr => lr ++ eraseKey rr mergeKey))⟩, []) ∧
    "_merge" ∉ p.cols ++ m.cols.filter (fun c => decide (c ≠ mergeKey)) := by
  have hfm : ∀ c ∈ m.cols.filter (fun c => decide (c ≠ mergeKey)), c ≠ "_merge" :=
    fun c hc hc' => hm (hc' ▸ (List.mem_filter.mp hc).1)
  have hnotmem : "_merge" ∉ p.cols ++ m.cols.filter (fun c => decide (c ≠ mergeKey)) := by
    intro hmem
    rcases List.mem_append.mp hmem with hmem | hmem
    · exact hp hmem
    · exact hfm _ hmem rfl
  have hind := merged_row_indicator p m hp hm hpr hmr
  refine ⟨?_, hnotmem⟩
  rw [merge_mapping_data_with_practice_level_data, innerMergeWithIndicator,
    if_pos ⟨hpk, hmk⟩, Option.map_some']
  unfold check_merge dropColumn
  simp only [Option.some.injEq, Prod.mk.injEq, DataFrame.mk.injEq]
  refine ⟨⟨?_, ?_⟩, ?_⟩
  · -- column labels: the appended indicator column is erased again
    show (p.cols ++ _ ++ ["_merge"]).erase "_merge" = _
    rw [List.erase_append_right _ hnotmem]
    simp
  · -- rows: dropping the indicator recovers exactly the matched pairs
    rw [List.map_flatMap, List.flatMap_def, List.flatMap_def]
    refine congrArg List.flatten (List.map_congr_left ?_)
    intro lr hlr
    rw [List.map_map]
    refine List.map_congr_left ?_
    intro rr hrr
    have hrr' : rr ∈ m.rows := (List.mem_filter.mp hrr).1
    simp only [Function.comp_apply]
    rw [eraseKey_append_of_forall_ne]
    · simp [eraseKey]
    · intro q hq hc
      rcases List.mem_append.mp hq with h1 | h1
      · exact hp (hc ▸ hpr lr hlr q h1)
      · exact hm (hc ▸ hmr rr hrr' q (mem_of_mem_eraseKey h1))
  · -- warnings: both bad-merge counts are zero
    refine List.map_eq_nil_iff.mpr (List.filter_eq_nil_iff.mpr ?_)
    intro side hside
    simp only [List.mem_cons, List.mem_singleton, List.not_mem_nil, or_false] at hside
    simp only [decide_eq_true_eq, ne_eq, not_not, value_count]
    rw [List.length_eq_zero]
    refine List.filter_eq_nil_iff.mpr ?_
    intro row hrow
    simp only [decide_eq_true_eq]
    rw [hind row hrow]
    rcases hside with rfl | rfl <;> decide

/-- C1 counterexample: practice code B appears in the appointment table
`pEx` but not in the mapping table `mEx`, yet the merge returns with an
empty warning list — no warning naming a non-zero left-only or right-only
count is ever raised, because the inner join has already discarded the
unmatched rows before `check_merge` counts them. -/
theorem C1_counterexample :
    (Value.str "B" ∈ pEx.rows.map (fun r => (rowGet r "GP_CODE").getD .null)) ∧
    (Value.str "B" ∉ mEx.rows.map (fun r => (rowGet r "GP_CODE").getD .null)) ∧
    merge_mapping_data_with_practice_level_data pEx mEx = some (mergedEx, []) :=
  ⟨by decide, by decide, by with_unfolding_all rfl⟩

/-- C1 witness: the amended theorem instantiated at `pEx`/`mEx`, whose
hypotheses are discharged by computation. -/
theorem C1_merge_inner_drops_unmatched_without_warning_witness :
    merge_mapping_data_with_practice_level_data pEx mEx =
      some (⟨pEx.cols ++ mEx.cols.filter (fun c => decide (c ≠ mergeKey)),
        pEx.rows.flatMap (fun lr =>
          (mEx.rows.filter (fun rr => decide (rowGet rr mergeKey = rowGet lr mergeKey))).map
            (fun rr => lr ++ eraseKey rr mergeKey))⟩, []) ∧
    "_merge" ∉ pEx.cols ++ mEx.cols.filter (fun c => decide (c ≠ mergeKey)) :=
  C1_merge_inner_drops_unmatched_without_warning pEx mEx (by decide) (by decide)
    (by decide) (by decide) (by decide) (by decide)

/-- C3 counterexample: on the scenario input with the literal status labels
`"ATTENDED"`, `"DID NOT ATTEND"`, `"UNKNOWN"`, the pivot leaves a column
named `DID NOT ATTEND` (the rename map only knows `DNA`/`Attended`/
`Unknown`), so the aggregation stage aborts on the missing `DID_NOT_ATTEND`
column: the pipeline yields no row at all, not the claimed summary row. -/
theorem C3_counterexample : c3run c3specInput = none := by with_unfolding_all rfl

/-- C3 (amended): with the status labels the pipeline's rename map expects
(`Attended`, `DNA`, `Unknown`) and counts 1, 2, 3, pivoting on
[date, practice, region] and aggregating with no extra dimensions yields
exactly one row with date 2021-01-01, ATTENDED 1, DID_NOT_ATTEND 2,
UNKNOWN 3, TOTAL_APPOINTMENTS 6, ATTENDED_RATE 1/6, DID_NOT_ATTEND_RATE
2/6. -/
theorem C3_scenario_amended : c3run c3codeInput = some c3expected := by with_unfolding_all rfl

/-- C10: `batch_summarize_monthly_aggregate_appointments` substitutes the
default dimensions only for `None` — an explicit empty list yields an empty
mapping — while `summarize_monthly_aggregate_appointments` and
`pivot_practice_level_data` treat an explicit empty list exactly like the
default (month-only grouping, default pivot index). -/
theorem C10_empty_list_defaults :
    (∀ df flag,
      batch_summarize_monthly_aggregate_appointments df (some []) flag = some []) ∧
    (∀ df flag,
      batch_summarize_monthly_aggregate_appointments df none flag =
        batch_summarize_monthly_aggregate_appointments df (some AGG_COLS) flag) ∧
    (∀ df flag,
      summarize_monthly_aggregate_appointments df (some []) flag =
        summarize_monthly_aggregate_appointments df none flag) ∧
    (∀ df c v r,
      pivot_practice_level_data df (some []) c v r =
        pivot_practice_level_data df none c v r) :=
  ⟨fun _ _ => rfl, fun _ _ => rfl, fun _ _ => rfl, fun _ _ _ _ => rfl⟩

/-- Helper: when the (index tuple, spread value) pairs are duplicate-free,
the pivoted cell for an input row's own pair is exactly that row's value
cell. -/
theorem pivotCell_self (df : DataFrame) (idx : List String) (columns values : String)
    (hnd : (pivotPairs df idx columns).Nodup) (r : Row) (hr : r ∈ df.rows) :
    pivotCell df idx columns values (keyOfRow idx r) ((rowGet r columns).getD .null) =
      (rowGet r values).getD .null := by
  rw [pivotCell]
  cases hfind : df.rows.find? (fun r' =>
      decide (keyOfRow idx r' = keyOfRow idx r ∧
        (rowGet r' columns).getD .null = (rowGet r columns).getD .null)) with
  | none =>
      exact absurd (by simp) (List.find?_eq_none.mp hfind r hr)
  | some r0 =>
      have h1 := List.find?_some hfind
      have h2 := List.mem_of_find?_eq_some hfind
      rw [decide_eq_true_eq] at h1
      have hnd' : (df.rows.map (fun r =>
          (keyOfRow idx r, (rowGet r columns).getD .null))).Nodup := hnd
      have : r0 = r := List.inj_on_of_nodup_map hnd' h2 hr (by simp [h1.1, h1.2])
      simp [this]

/-- Helper: the pivoted cell of a combination realised by no input row is
missing (left null, not zero). -/
theorem pivotCell_absent (df : DataFrame) (idx : List String) (columns values : String)
    (k : List Value) (s : Value)
    (h : ¬ ∃ r ∈ df.rows, keyOfRow idx r = k ∧ (rowGet r columns).getD .null = s) :
    pivotCell df idx columns values k s = .null := by
  rw [pivotCell]
  rw [List.find?_eq_none.mpr ?_]
  intro r' hr'
  rw [decide_eq_true_eq]
  exact fun hpair => h ⟨r', hr', hpair.1, hpair.2⟩

/-- C4: the pivot stage fails exactly when some (index tuple, status) pair
occurs in more than one input row; on success it yields one row per unique
index tuple (index flattened into ordinary columns), one column per
distinct status value observed in the input, each cell holding the value of
the row realising that (index, status) pair, and combinations realised by
no row are left null. -/
theorem C4_pivot_contract (df : DataFrame) (index : Option (List String))
    (columns values : String) (rename_columns : Option (List (String × String)))
    (hk : ∀ c ∈ effArg defaultPivotIndex index, c ∈ df.cols)
    (hc : columns ∈ df.cols) (hv : values ∈ df.cols) :
    (pivot_practice_level_data df index columns values rename_columns = none ↔
      ∃ pr, (pivotPairs df (effArg defaultPivotIndex index) columns).Duplicate pr) ∧
    (∀ out, pivot_practice_level_data df index columns values rename_columns = some out →
      out.cols = (effArg defaultPivotIndex index ++
        (statusValues df columns).map colNameOfValue).map
          (applyRename (effArg defaultRename rename_columns)) ∧
      out.rows.length = (pivotKeys df (effArg defaultPivotIndex index)).length ∧
      out.rows = (pivotKeys df (effArg defaultPivotIndex index)).map (fun k =>
        ((effArg defaultPivotIndex index).zip k ++ (statusValues df columns).map (fun s =>
          (colNameOfValue s,
            pivotCell df (effArg defaultPivotIndex index) columns values k s))).map
          (fun p => (applyRename (effArg defaultRename rename_columns) p.1, p.2))) ∧
      (∀ r ∈ df.rows,
        pivotCell df (effArg defaultPivotIndex index) columns values
          (keyOfRow (effArg defaultPivotIndex index) r) ((rowGet r columns).getD .null) =
          (rowGet r values).getD .null) ∧
      (∀ k s, (¬ ∃ r ∈ df.rows,
          keyOfRow (effArg defaultPivotIndex index) r = k ∧
            (rowGet r columns).getD .null = s) →
        pivotCell df (effArg defaultPivotIndex index) columns values k s = .null)) := by
  constructor
  · rw [pivot_practice_level_data, pivotTable, if_pos ⟨hk, hc, hv⟩]
    by_cases hnd : (pivotPairs df (effArg defaultPivotIndex index) columns).Nodup
    · rw [if_pos hnd, Option.map_some']
      refine iff_of_false (by simp) ?_
      rintro ⟨pr, hpr⟩
      exact hpr.not_nodup hnd
    · rw [if_neg hnd, Option.map_none']
      exact iff_of_true rfl (List.exists_duplicate_iff_not_nodup.mpr hnd)
  · intro out hout
    rw [pivot_practice_level_data, pivotTable, if_pos ⟨hk, hc, hv⟩] at hout
    by_cases hnd : (pivotPairs df (effArg defaultPivotIndex index) columns).Nodup
    · rw [if_pos hnd, Option.map_some', Option.some.injEq] at hout
      subst hout
      refine ⟨rfl, by simp [renameColumns], by simp [renameColumns], ?_, ?_⟩
      · exact fun r hr => pivotCell_self df _ columns values hnd r hr
      · exact fun k s h => pivotCell_absent df _ columns values k s h
    · rw [if_neg hnd, Option.map_none'] at hout
      cases hout

/-- C4 witness: the pivot contract instantiated at the concrete three-row
table `c3codeInput` with the [date, practice, region] index. -/
theorem C4_pivot_contract_witness :
    ((pivot_practice_level_data c3codeInput (some c3index) "APPT_STATUS"
        "COUNT_OF_APPOINTMENTS" none = none ↔
      ∃ pr, (pivotPairs c3codeInput (effArg defaultPivotIndex (some c3index))
        "APPT_STATUS").Duplicate pr) ∧
    (∀ out, pivot_practice_level_data c3codeInput (some c3index) "APPT_STATUS"
        "COUNT_OF_APPOINTMENTS" none = some out →
      out.cols = (effArg defaultPivotIndex (some c3index) ++
        (statusValues c3codeInput "APPT_STATUS").map colNameOfValue).map
          (applyRename (effArg defaultRename none)) ∧
      out.rows.length = (pivotKeys c3codeInput (effArg defaultPivotIndex (some c3index))).length ∧
      out.rows = (pivotKeys c3codeInput (effArg defaultPivotIndex (some c3index))).map (fun k =>
        ((effArg defaultPivotIndex (some c3index)).zip k ++
          (statusValues c3codeInput "APPT_STATUS").map (fun s =>
          (colNameOfValue s,
            pivotCell c3codeInput (effArg defaultPivotIndex (some c3index)) "APPT_STATUS"
              "COUNT_OF_APPOINTMENTS" k s))).map
          (fun p => (applyRename (effArg defaultRename none) p.1, p.2))) ∧
      (∀ r ∈ c3codeInput.rows,
        pivotCell c3codeInput (effArg defaultPivotIndex (some c3index)) "APPT_STATUS"
          "COUNT_OF_APPOINTMENTS"
          (keyOfRow (effArg defaultPivotIndex (some c3index)) r)
          ((rowGet r "APPT_STATUS").getD .null) =
          (rowGet r "COUNT_OF_APPOINTMENTS").getD .null) ∧
      (∀ k s, (¬ ∃ r ∈ c3codeInput.rows,
          keyOfRow (effArg defaultPivotIndex (some c3index)) r = k ∧
            (rowGet r "APPT_STATUS").getD .null = s) →
        pivotCell c3codeInput (effArg defaultPivotIndex (some c3index)) "APPT_STATUS"
          "COUNT_OF_APPOINTMENTS" k s = .null))) :=
  C4_pivot_contract c3codeInput (some c3index) "APPT_STATUS" "COUNT_OF_APPOINTMENTS" none
    (by decide) (by decide) (by decide)

/-- C2: in every summary row produced with rates enabled from non-negative
status counts, if the total is positive then both rates lie in [0, 1],
their sum is at most 1, with equality exactly when the row's UNKNOWN count
is 0 and strict inequality when it is positive. -/
theorem C2_rate_invariant (pt : DataFrame) (aggCols : List String)
    (h1 : ∀ c ∈ summaryKeys aggCols, c ∈ pt.cols)
    (h2 : ∀ c ∈ aggTargets, c ∈ pt.cols)
    (h3 : ∀ c ∈ aggTargets, c ∉ summaryKeys aggCols)
    (h4 : "TOTAL_APPOINTMENTS" ∉ summaryKeys aggCols)
    (h5 : "ATTENDED_RATE" ∉ summaryKeys aggCols)
    (h6 : "DID_NOT_ATTEND_RATE" ∉ summaryKeys aggCols)
    (hnn : ∀ r ∈ pt.rows, ∀ c ∈ aggTargets, 0 ≤ numOrZero (rowGet r c)) :
    ∀ out, summarize_monthly_aggregate_appointments pt (some aggCols) true = some out →
    ∀ r' ∈ out.rows, ∀ t : ℚ,
      rowGet r' "TOTAL_APPOINTMENTS" = some (.num t) → 0 < t →
      ∃ a d u ar dr : ℚ,
        rowGet r' "ATTENDED" = some (.num a) ∧
        rowGet r' "DID_NOT_ATTEND" = some (.num d) ∧
        rowGet r' "UNKNOWN" = some (.num u) ∧
        rowGet r' "ATTENDED_RATE" = some (.num ar) ∧
        rowGet r' "DID_NOT_ATTEND_RATE" = some (.num dr) ∧
        0 ≤ ar ∧ ar ≤ 1 ∧ 0 ≤ dr ∧ dr ≤ 1 ∧ ar + dr ≤ 1 ∧
        (ar + dr = 1 ↔ u = 0) ∧ (0 < u → ar + dr < 1) := by
  intro out hout r' hr' t ht htpos
  rw [summarize_true_eq pt aggCols h1 h2 h3 h4 h5 h6, Option.some.injEq] at hout
  subst hout
  rw [show (DataFrame.rows ⟨_, (groupKeysOf pt (summaryKeys aggCols)).map
      (rateRow pt (summaryKeys aggCols))⟩) =
    (groupKeysOf pt (summaryKeys aggCols)).map (rateRow pt (summaryKeys aggCols))
    from rfl, List.mem_map] at hr'
  obtain ⟨k, _, rfl⟩ := hr'
  obtain ⟨gA, gD, gU, gT, gAR, gDR⟩ := rowGet_rateRow pt (summaryKeys aggCols) k h3 h4 h5 h6
  have htEq : totalSum pt (summaryKeys aggCols) k = t := by
    have := gT.symm.trans ht
    rw [Option.some.injEq, Value.num.injEq] at this
    exact this
  have hne : totalSum pt (summaryKeys aggCols) k ≠ 0 := by
    rw [htEq]; exact htpos.ne'
  have hvA : vdiv (Value.num (statusSum pt (summaryKeys aggCols) k "ATTENDED"))
      (Value.num (totalSum pt (summaryKeys aggCols) k)) =
      Value.num (statusSum pt (summaryKeys aggCols) k "ATTENDED" /
        totalSum pt (summaryKeys aggCols) k) := by
    simp [vdiv, hne]
  have hvD : vdiv (Value.num (statusSum pt (summaryKeys aggCols) k "DID_NOT_ATTEND"))
      (Value.num (totalSum pt (summaryKeys aggCols) k)) =
      Value.num (statusSum pt (summaryKeys aggCols) k "DID_NOT_ATTEND" /
        totalSum pt (summaryKeys aggCols) k) := by
    simp [vdiv, hne]
  have hgeA : 0 ≤ statusSum pt (summaryKeys aggCols) k "ATTENDED" :=
    statusSum_nonneg _ _ _ _ (fun r hr => hnn r hr _ (by simp [aggTargets]))
  have hgeD : 0 ≤ statusSum pt (summaryKeys aggCols) k "DID_NOT_ATTEND" :=
    statusSum_nonneg _ _ _ _ (fun r hr => hnn r hr _ (by simp [aggTargets]))
  have hgeU : 0 ≤ statusSum pt (summaryKeys aggCols) k "UNKNOWN" :=
    statusSum_nonneg _ _ _ _ (fun r hr => hnn r hr _ (by simp [aggTargets]))
  have hsplit : statusSum pt (summaryKeys aggCols) k "ATTENDED" +
      statusSum pt (summaryKeys aggCols) k "DID_NOT_ATTEND" +
      statusSum pt (summaryKeys aggCols) k "UNKNOWN" = t := htEq
  refine ⟨statusSum pt (summaryKeys aggCols) k "ATTENDED",
    statusSum pt (summaryKeys aggCols) k "DID_NOT_ATTEND",
    statusSum pt (summaryKeys aggCols) k "UNKNOWN",
    statusSum pt (summaryKeys aggCols) k "ATTENDED" / t,
    statusSum pt (summaryKeys aggCols) k "DID_NOT_ATTEND" / t,
    gA, gD, gU, ?_, ?_, ?_, ?_, ?_, ?_, ?_, ?_, ?_⟩
  · rw [gAR, hvA, htEq]
  · rw [gDR, hvD, htEq]
  · exact div_nonneg hgeA htpos.le
  · exact (div_le_one htpos).mpr (by linarith)
  · exact div_nonneg hgeD htpos.le
  · exact (div_le_one htpos).mpr (by linarith)
  · rw [div_add_div_same]
    exact (div_le_one htpos).mpr (by linarith)
  · rw [div_add_div_same, div_eq_one_iff_eq htpos.ne']
    constructor
    · intro h; linarith
    · intro h; linarith
  · intro hu
    rw [div_add_div_same]
    exact (div_lt_one htpos).mpr (by linarith)

/-- C2 witness: the invariant instantiated at the concrete pivoted table
`c8pt` grouped by REGION_NAME, on its surviving summary row with total 6. -/
theorem C2_rate_invariant_witness :
    ∃ a d u ar dr : ℚ,
      rowGet c8srow "ATTENDED" = some (.num a) ∧
      rowGet c8srow "DID_NOT_ATTEND" = some (.num d) ∧
      rowGet c8srow "UNKNOWN" = some (.num u) ∧
      rowGet c8srow "ATTENDED_RATE" = some (.num ar) ∧
      rowGet c8srow "DID_NOT_ATTEND_RATE" = some (.num dr) ∧
      0 ≤ ar ∧ ar ≤ 1 ∧ 0 ≤ dr ∧ dr ≤ 1 ∧ ar + dr ≤ 1 ∧
      (ar + dr = 1 ↔ u = 0) ∧ (0 < u → ar + dr < 1) :=
  C2_rate_invariant c8pt ["REGION_NAME"]
    (of_decide_eq_true (by with_unfolding_all rfl))
    (of_decide_eq_true (by with_unfolding_all rfl))
    (of_decide_eq_true (by with_unfolding_all rfl))
    (of_decide_eq_true (by with_unfolding_all rfl))
    (of_decide_eq_true (by with_unfolding_all rfl))
    (of_decide_eq_true (by with_unfolding_all rfl))
    (of_decide_eq_true (by with_unfolding_all rfl))
    _ (by with_unfolding_all rfl)
    c8srow (of_decide_eq_true (by with_unfolding_all rfl))
    6 (by with_unfolding_all rfl)
    (of_decide_eq_true (by with_unfolding_all rfl))

/-- C6: when the grouping keys do not collapse distinct index tuples, the
TOTAL_APPOINTMENTS value of the summary row corresponding to an input row
equals the sum of that row's pivoted status cells with nulls treated as
zero. -/
theorem C6_pivot_aggregation_roundtrip (pt : DataFrame) (aggCols : List String)
    (h1 : ∀ c ∈ summaryKeys aggCols, c ∈ pt.cols)
    (h2 : ∀ c ∈ aggTargets, c ∈ pt.cols)
    (h3 : ∀ c ∈ aggTargets, c ∉ summaryKeys aggCols)
    (h4 : "TOTAL_APPOINTMENTS" ∉ summaryKeys aggCols)
    (h5 : "ATTENDED_RATE" ∉ summaryKeys aggCols)
    (h6 : "DID_NOT_ATTEND_RATE" ∉ summaryKeys aggCols)
    (hkeysnd : (summaryKeys aggCols).Nodup)
    (hinj : (pt.rows.map (keyOfRow (summaryKeys aggCols))).Nodup) :
    ∀ out, summarize_monthly_aggregate_appointments pt (some aggCols) true = some out →
    ∀ r ∈ pt.rows, keyHasNull (summaryKeys aggCols) r = false →
    ∃ r' ∈ out.rows,
      keyOfRow (summaryKeys aggCols) r' = keyOfRow (summaryKeys aggCols) r ∧
      rowGet r' "TOTAL_APPOINTMENTS" =
        some (.num ((aggTargets.map (fun c => numOrZero (rowGet r c))).sum)) := by
  intro out hout r hr hnull
  rw [summarize_true_eq pt aggCols h1 h2 h3 h4 h5 h6, Option.some.injEq] at hout
  subst hout
  have hkept : r ∈ keptRows pt (summaryKeys aggCols) :=
    List.mem_filter.mpr ⟨hr, by simp [hnull]⟩
  have hkmem : keyOfRow (summaryKeys aggCols) r ∈ groupKeysOf pt (summaryKeys aggCols) := by
    rw [groupKeysOf, List.mem_dedup]
    exact List.mem_map_of_mem _ hkept
  refine ⟨rateRow pt (summaryKeys aggCols) (keyOfRow (summaryKeys aggCols) r),
    List.mem_map_of_mem _ hkmem, ?_, ?_⟩
  · rw [rateRow]
    refine keyOfRow_zip _ _ _ hkeysnd ?_
    rw [keyOfRow, List.length_map]
  · obtain ⟨_, _, _, gT, _, _⟩ :=
      rowGet_rateRow pt (summaryKeys aggCols) (keyOfRow (summaryKeys aggCols) r) h3 h4 h5 h6
    rw [gT]
    have hknd : ((keptRows pt (summaryKeys aggCols)).map
        (keyOfRow (summaryKeys aggCols))).Nodup :=
      ((List.filter_sublist pt.rows).map (keyOfRow (summaryKeys aggCols))).nodup hinj
    have hgroup : groupOf pt (summaryKeys aggCols) (keyOfRow (summaryKeys aggCols) r) =
        [r] :=
      filter_eq_singleton_of_nodup_map (keyOfRow (summaryKeys aggCols)) _ hknd r hkept
    rw [totalSum, statusSum, statusSum, statusSum, hgroup]
    simp only [groupSum, List.map_cons, List.map_nil, List.sum_cons, List.sum_nil,
      aggTargets]
    congr 1
    ring_nf

/-- C6 witness: the round-trip instantiated at the concrete pivoted table
`c8pt` grouped by REGION_NAME, on its first row. -/
theorem C6_pivot_aggregation_roundtrip_witness :
    ∃ r' ∈ c8summary.rows,
      keyOfRow (summaryKeys ["REGION_NAME"]) r' =
        keyOfRow (summaryKeys ["REGION_NAME"]) c8row1 ∧
      rowGet r' "TOTAL_APPOINTMENTS" =
        some (.num ((aggTargets.map (fun c => numOrZero (rowGet c8row1 c))).sum)) :=
  C6_pivot_aggregation_roundtrip c8pt ["REGION_NAME"]
    (of_decide_eq_true (by with_unfolding_all rfl))
    (of_decide_eq_true (by with_unfolding_all rfl))
    (of_decide_eq_true (by with_unfolding_all rfl))
    (of_decide_eq_true (by with_unfolding_all rfl))
    (of_decide_eq_true (by with_unfolding_all rfl))
    (of_decide_eq_true (by with_unfolding_all rfl))
    (of_decide_eq_true (by with_unfolding_all rfl))
    (of_decide_eq_true (by with_unfolding_all rfl))
    c8summary (by with_unfolding_all rfl)
    c8row1 (of_decide_eq_true (by with_unfolding_all rfl))
    (by with_unfolding_all rfl)

/-- C9: on the grouped summary table, each rate-derivation step returns its
input with exactly one new column appended — `TOTAL_APPOINTMENTS`, then
`ATTENDED_RATE`, then `DID_NOT_ATTEND_RATE` — the row count unchanged and
every pre-existing column's cells (ATTENDED, DID_NOT_ATTEND and UNKNOWN
included) unchanged. -/
theorem C9_rate_steps_append_one_column (pt : DataFrame) (aggCols : List String)
    (h4 : "TOTAL_APPOINTMENTS" ∉ summaryKeys aggCols)
    (h5 : "ATTENDED_RATE" ∉ summaryKeys aggCols)
    (h6 : "DID_NOT_ATTEND_RATE" ∉ summaryKeys aggCols) :
    ∀ G, groupbySum pt (summaryKeys aggCols) = some G →
    ∃ G1 G2 G3,
      calculate_total_appointments G none = some G1 ∧
      G1.cols = G.cols ++ ["TOTAL_APPOINTMENTS"] ∧
      G1.rows.length = G.rows.length ∧
      (∀ (i : Nat) (r : Row), G.rows[i]? = some r → ∃ r1, G1.rows[i]? = some r1 ∧
        ∀ c ∈ G.cols, rowGet r1 c = rowGet r c) ∧
      calculate_attended_rate G1 = some G2 ∧
      G2.cols = G1.cols ++ ["ATTENDED_RATE"] ∧
      G2.rows.length = G1.rows.length ∧
      (∀ (i : Nat) (r : Row), G1.rows[i]? = some r → ∃ r2, G2.rows[i]? = some r2 ∧
        ∀ c ∈ G1.cols, rowGet r2 c = rowGet r c) ∧
      calculate_did_not_attend_rate G2 = some G3 ∧
      G3.cols = G2.cols ++ ["DID_NOT_ATTEND_RATE"] ∧
      G3.rows.length = G2.rows.length ∧
      (∀ (i : Nat) (r : Row), G2.rows[i]? = some r → ∃ r3, G3.rows[i]? = some r3 ∧
        ∀ c ∈ G2.cols, rowGet r3 c = rowGet r c) := by
  intro G hG
  rw [groupbySum] at hG
  split at hG
  case isFalse => cases hG
  case isTrue hcond =>
  rw [Option.some.injEq] at hG
  subst hG
  obtain ⟨hk1, hk2, h3⟩ := hcond
  refine ⟨_, _, _,
    total_step pt (summaryKeys aggCols) (groupKeysOf pt (summaryKeys aggCols)) h3 h4,
    rfl, by simp, ?_,
    attended_step pt (summaryKeys aggCols) (groupKeysOf pt (summaryKeys aggCols)) h3 h4 h5,
    rfl, by simp, ?_,
    dna_step pt (summaryKeys aggCols) (groupKeysOf pt (summaryKeys aggCols)) h3 h4 h6,
    rfl, by simp, ?_⟩
  · -- total step preserves all grouped columns
    intro i r hir
    rw [show (DataFrame.mk (summaryKeys aggCols ++ aggTargets)
        ((groupKeysOf pt (summaryKeys aggCols)).map (aggRow pt (summaryKeys aggCols)))).rows
      = (groupKeysOf pt (summaryKeys aggCols)).map (aggRow pt (summaryKeys aggCols))
      from rfl, List.getElem?_map] at hir
    cases hk : (groupKeysOf pt (summaryKeys aggCols))[i]? with
    | none => rw [hk] at hir; cases hir
    | some k =>
        rw [hk, Option.map_some', Option.some.injEq] at hir
        refine ⟨aggRow pt (summaryKeys aggCols) k ++
          [("TOTAL_APPOINTMENTS",
            Value.num (totalSum pt (summaryKeys aggCols) k))], ?_, ?_⟩
        · rw [show (DataFrame.mk ((summaryKeys aggCols ++ aggTargets) ++
              ["TOTAL_APPOINTMENTS"])
              ((groupKeysOf pt (summaryKeys aggCols)).map (fun k =>
                aggRow pt (summaryKeys aggCols) k ++
                [("TOTAL_APPOINTMENTS",
                  Value.num (totalSum pt (summaryKeys aggCols) k))]))).rows
            = (groupKeysOf pt (summaryKeys aggCols)).map (fun k =>
                aggRow pt (summaryKeys aggCols) k ++
                [("TOTAL_APPOINTMENTS",
                  Value.num (totalSum pt (summaryKeys aggCols) k))]) from rfl,
            List.getElem?_map, hk, Option.map_some']
        · intro c hc
          have hcT : "TOTAL_APPOINTMENTS" ≠ c := by
            rintro rfl
            rcases List.mem_append.mp hc with hmem | hmem
            · exact h4 hmem
            · simp [aggTargets] at hmem
          rw [← hir, rowGet_append_single_ne _ _ _ _ hcT]
  · -- attended-rate step preserves all earlier columns
    intro i r hir
    rw [show (DataFrame.mk ((summaryKeys aggCols ++ aggTargets) ++ ["TOTAL_APPOINTMENTS"])
        ((groupKeysOf pt (summaryKeys aggCols)).map (fun k =>
          aggRow pt (summaryKeys aggCols) k ++
          [("TOTAL_APPOINTMENTS",
            Value.num (totalSum pt (summaryKeys aggCols) k))]))).rows
      = (groupKeysOf pt (summaryKeys aggCols)).map (fun k =>
          aggRow pt (summaryKeys aggCols) k ++
          [("TOTAL_APPOINTMENTS",
            Value.num (totalSum pt (summaryKeys aggCols) k))]) from rfl,
      List.getElem?_map] at hir
    cases hk : (groupKeysOf pt (summaryKeys aggCols))[i]? with
    | none => rw [hk] at hir; cases hir
    | some k =>
        rw [hk, Option.map_some', Option.some.injEq] at hir
        refine ⟨(aggRow pt (summaryKeys aggCols) k ++
          [("TOTAL_APPOINTMENTS", Value.num (totalSum pt (summaryKeys aggCols) k))]) ++
          [("ATTENDED_RATE", vdiv (Value.num (statusSum pt (summaryKeys aggCols) k
            "ATTENDED")) (Value.num (totalSum pt (summaryKeys aggCols) k)))], ?_, ?_⟩
        · rw [show (DataFrame.mk (((summaryKeys aggCols ++ aggTargets) ++
              ["TOTAL_APPOINTMENTS"]) ++ ["ATTENDED_RATE"])
              ((groupKeysOf pt (summaryKeys aggCols)).map (fun k =>
                (aggRow pt (summaryKeys aggCols) k ++
                [("TOTAL_APPOINTMENTS",
                  Value.num (totalSum pt (summaryKeys aggCols) k))]) ++
                [("ATTENDED_RATE", vdiv (Value.num (statusSum pt (summaryKeys aggCols) k
                  "ATTENDED")) (Value.num (totalSum pt (summaryKeys aggCols) k)))]))).rows
            = (groupKeysOf pt (summaryKeys aggCols)).map (fun k =>
                (aggRow pt (summaryKeys aggCols) k ++
                [("TOTAL_APPOINTMENTS",
                  Value.num (totalSum pt (summaryKeys aggCols) k))]) ++
                [("ATTENDED_RATE", vdiv (Value.num (statusSum pt (summaryKeys aggCols) k
                  "ATTENDED")) (Value.num (totalSum pt (summaryKeys aggCols) k)))])
            from rfl, List.getElem?_map, hk, Option.map_some']
        · intro c hc
          have hcA : "ATTENDED_RATE" ≠ c := by
            rintro rfl
            rcases List.mem_append.mp hc with hmem | hmem
            · rcases List.mem_append.mp hmem with hmem | hmem
              · exact h5 hmem
              · simp [aggTargets] at hmem
            · simp at hmem
          rw [← hir, rowGet_append_single_ne _ _ _ _ hcA]
  · -- did-not-attend-rate step preserves all earlier columns
    intro i r hir
    rw [show (DataFrame.mk (((summaryKeys aggCols ++ aggTargets) ++
        ["TOTAL_APPOINTMENTS"]) ++ ["ATTENDED_RATE"])
        ((groupKeysOf pt (summaryKeys aggCols)).map (fun k =>
          (aggRow pt (summaryKeys aggCols) k ++
          [("TOTAL_APPOINTMENTS",
            Value.num (totalSum pt (summaryKeys aggCols) k))]) ++
          [("ATTENDED_RATE", vdiv (Value.num (statusSum pt (summaryKeys aggCols) k
            "ATTENDED")) (Value.num (totalSum pt (summaryKeys aggCols) k)))]))).rows
      = (groupKeysOf pt (summaryKeys aggCols)).map (fun k =>
          (aggRow pt (summaryKeys aggCols) k ++
          [("TOTAL_APPOINTMENTS",
            Value.num (totalSum pt (summaryKeys aggCols) k))]) ++
          [("ATTENDED_RATE", vdiv (Value.num (statusSum pt (summaryKeys aggCols) k
            "ATTENDED")) (Value.num (totalSum pt (summaryKeys aggCols) k)))])
      from rfl, List.getElem?_map] at hir
    cases hk : (groupKeysOf pt (summaryKeys aggCols))[i]? with
    | none => rw [hk] at hir; cases hir
    | some k =>
        rw [hk, Option.map_some', Option.some.injEq] at hir
        refine ⟨((aggRow pt (summaryKeys aggCols) k ++
          [("TOTAL_APPOINTMENTS", Value.num (totalSum pt (summaryKeys aggCols) k))]) ++
          [("ATTENDED_RATE", vdiv (Value.num (statusSum pt (summaryKeys aggCols) k
            "ATTENDED")) (Value.num (totalSum pt (summaryKeys aggCols) k)))]) ++
          [("DID_NOT_ATTEND_RATE", vdiv (Value.num (statusSum pt (summaryKeys aggCols) k
            "DID_NOT_ATTEND")) (Value.num (totalSum pt (summaryKeys aggCols) k)))],
          ?_, ?_⟩
        · rw [show (DataFrame.mk ((((summaryKeys aggCols ++ aggTargets) ++
              ["TOTAL_APPOINTMENTS"]) ++ ["ATTENDED_RATE"]) ++ ["DID_NOT_ATTEND_RATE"])
              ((groupKeysOf pt (summaryKeys aggCols)).map (fun k =>
                ((aggRow pt (summaryKeys aggCols) k ++
                [("TOTAL_APPOINTMENTS",
                  Value.num (totalSum pt (summaryKeys aggCols) k))]) ++
                [("ATTENDED_RATE", vdiv (Value.num (statusSum pt (summaryKeys aggCols) k
                  "ATTENDED")) (Value.num (totalSum pt (summaryKeys aggCols) k)))]) ++
                [("DID_NOT_ATTEND_RATE", vdiv (Value.num (statusSum pt
                  (summaryKeys aggCols) k "DID_NOT_ATTEND"))
                  (Value.num (totalSum pt (summaryKeys aggCols) k)))]))).rows
            = (groupKeysOf pt (summaryKeys aggCols)).map (fun k =>
                ((aggRow pt (summaryKeys aggCols) k ++
                [("TOTAL_APPOINTMENTS",
                  Value.num (totalSum pt (summaryKeys aggCols) k))]) ++
                [("ATTENDED_RATE", vdiv (Value.num (statusSum pt (summaryKeys aggCols) k
                  "ATTENDED")) (Value.num (totalSum pt (summaryKeys aggCols) k)))]) ++
                [("DID_NOT_ATTEND_RATE", vdiv (Value.num (statusSum pt
                  (summaryKeys aggCols) k "DID_NOT_ATTEND"))
                  (Value.num (totalSum pt (summaryKeys aggCols) k)))])
            from rfl, List.getElem?_map, hk, Option.map_some']
        · intro c hc
          have hcD : "DID_NOT_ATTEND_RATE" ≠ c := by
            rintro rfl
            rcases List.mem_append.mp hc with hmem | hmem
            · rcases List.mem_append.mp hmem with hmem | hmem
              · rcases List.mem_append.mp hmem with hmem | hmem
                · exact h6 hmem
                · simp [aggTargets] at hmem
              · simp at hmem
            · simp at hmem
          rw [← hir, rowGet_append_single_ne _ _ _ _ hcD]

/-- C9 witness: the three steps instantiated on the concrete grouped
summary of `c8pt` by REGION_NAME. -/
theorem C9_rate_steps_append_one_column_witness :
    ∃ G1 G2 G3,
      calculate_total_appointments c9G none = some G1 ∧
      G1.cols = c9G.cols ++ ["TOTAL_APPOINTMENTS"] ∧
      G1.rows.length = c9G.rows.length ∧
      (∀ (i : Nat) (r : Row), c9G.rows[i]? = some r → ∃ r1, G1.rows[i]? = some r1 ∧
        ∀ c ∈ c9G.cols, rowGet r1 c = rowGet r c) ∧
      calculate_attended_rate G1 = some G2 ∧
      G2.cols = G1.cols ++ ["ATTENDED_RATE"] ∧
      G2.rows.length = G1.rows.length ∧
      (∀ (i : Nat) (r : Row), G1.rows[i]? = some r → ∃ r2, G2.rows[i]? = some r2 ∧
        ∀ c ∈ G1.cols, rowGet r2 c = rowGet r c) ∧
      calculate_did_not_attend_rate G2 = some G3 ∧
      G3.cols = G2.cols ++ ["DID_NOT_ATTEND_RATE"] ∧
      G3.rows.length = G2.rows.length ∧
      (∀ (i : Nat) (r : Row), G2.rows[i]? = some r → ∃ r3, G3.rows[i]? = some r3 ∧
        ∀ c ∈ G2.cols, rowGet r3 c = rowGet r c) :=
  C9_rate_steps_append_one_column c8pt ["REGION_NAME"]
    (of_decide_eq_true (by with_unfolding_all rfl))
    (of_decide_eq_true (by with_unfolding_all rfl))
    (of_decide_eq_true (by with_unfolding_all rfl))
    c9G (by with_unfolding_all rfl)

/-- C7: a summary row whose three status cells are all zero or missing gets
TOTAL_APPOINTMENTS 0, and both rate cells hold the undefined marker (NaN,
from 0/0), propagated into the output rather than replaced by a number. -/
theorem C7_zero_total_rates (df : DataFrame)
    (hcols : ∀ c ∈ aggTargets, c ∈ df.cols)
    (hT : "TOTAL_APPOINTMENTS" ∉ df.cols)
    (hAR : "ATTENDED_RATE" ∉ df.cols)
    (hDR : "DID_NOT_ATTEND_RATE" ∉ df.cols)
    (hrw : ∀ r ∈ df.rows, ∀ p ∈ r, p.1 ∈ df.cols) :
    ∀ out, calculate_appointment_columns df = some out →
    ∀ (i : Nat) (r : Row), df.rows[i]? = some r →
    (∀ c ∈ aggTargets,
      (rowGet r c).getD .null = .null ∨ (rowGet r c).getD .null = .num 0) →
    ∃ r', out.rows[i]? = some r' ∧
      rowGet r' "TOTAL_APPOINTMENTS" = some (.num 0) ∧
      rowGet r' "ATTENDED_RATE" = some .null ∧
      rowGet r' "DID_NOT_ATTEND_RATE" = some .null := by
  intro out hout i r hir hzero
  have hrmem : r ∈ df.rows := List.getElem?_mem hir
  -- unfold the three steps
  rw [calculate_appointment_columns] at hout
  simp only [calculate_total_appointments, effArg] at hout
  rw [if_pos hcols, addColumn, if_neg hT] at hout
  simp only [Option.bind_eq_bind, Option.some_bind] at hout
  rw [calculate_attended_rate,
    if_pos ⟨List.mem_append_left _ (hcols _ (by simp [aggTargets])),
      List.mem_append_right _ (by simp)⟩,
    addColumn, if_neg (by simp [hAR])] at hout
  simp only [Option.some_bind] at hout
  rw [calculate_did_not_attend_rate,
    if_pos ⟨List.mem_append_left _ (List.mem_append_left _
        (hcols _ (by simp [aggTargets]))),
      List.mem_append_left _ (List.mem_append_right _ (by simp))⟩,
    addColumn, if_neg (by simp [hDR])] at hout
  rw [Option.some.injEq] at hout
  subst hout
  -- the transformed row at position i
  simp only [List.map_map, List.getElem?_map, hir, Option.map_some']
  set fr : Row := r.map (fun p => (p.1, fillZero aggTargets p.1 p.2)) with hfr
  -- status cells of the filled row are 0 or absent
  have hfGet : ∀ c ∈ aggTargets, rowGet fr c = none ∨ rowGet fr c = some (.num 0) := by
    intro c hc
    rw [hfr, rowGet_map_entry (fillZero aggTargets)]
    rcases hzero c hc with h | h
    · cases hg : rowGet r c with
      | none => left; rfl
      | some v =>
          right
          rw [hg] at h
          simp only [Option.getD_some] at h
          subst h
          simp [fillZero, hc]
    · cases hg : rowGet r c with
      | none => left; rfl
      | some v =>
          right
          rw [hg] at h
          simp only [Option.getD_some] at h
          subst h
          simp [fillZero]
  -- the appended total cell is zero
  have htotal : Value.num ((aggTargets.map (fun c => numOrZero (rowGet fr c))).sum) =
      Value.num 0 := by
    refine congrArg Value.num (List.sum_eq_zero ?_)
    intro x hx
    rw [List.mem_map] at hx
    obtain ⟨c, hc, rfl⟩ := hx
    rcases hfGet c hc with h | h <;> simp [h, numOrZero]
  -- labels of the filled row avoid the derived column names
  have hlab : ∀ t : String, t ∉ df.cols → ∀ p ∈ fr, p.1 ≠ t := by
    intro t ht p hp
    rw [hfr, List.mem_map] at hp
    obtain ⟨q, hq, rfl⟩ := hp
    exact fun hc => ht (hc ▸ hrw r hrmem q hq)
  have hTfr := hlab _ hT
  have hARfr := hlab _ hAR
  have hDRfr := hlab _ hDR
  -- lookups on the successive rows
  have hr2T : rowGet (fr ++ [("TOTAL_APPOINTMENTS", Value.num 0)]) "TOTAL_APPOINTMENTS" =
      some (.num 0) := by
    rw [rowGet_append_of_forall_ne _ _ _ hTfr]
    simp [rowGet]
  have hr2A : rowGet (fr ++ [("TOTAL_APPOINTMENTS", Value.num 0)]) "ATTENDED" = none ∨
      rowGet (fr ++ [("TOTAL_APPOINTMENTS", Value.num 0)]) "ATTENDED" =
        some (.num 0) := by
    rcases hfGet "ATTENDED" (by simp [aggTargets]) with h | h
    · left
      rw [rowGet_append_of_none _ _ _ h]
      simp [rowGet]
    · right
      exact rowGet_append_left _ _ _ _ h
  have hr2D : rowGet (fr ++ [("TOTAL_APPOINTMENTS", Value.num 0)]) "DID_NOT_ATTEND" =
        none ∨
      rowGet (fr ++ [("TOTAL_APPOINTMENTS", Value.num 0)]) "DID_NOT_ATTEND" =
        some (.num 0) := by
    rcases hfGet "DID_NOT_ATTEND" (by simp [aggTargets]) with h | h
    · left
      rw [rowGet_append_of_none _ _ _ h]
      simp [rowGet]
    · right
      exact rowGet_append_left _ _ _ _ h
  -- the attended-rate cell is the NaN marker
  have hARcell : vdiv ((rowGet (fr ++ [("TOTAL_APPOINTMENTS", Value.num 0)])
      "ATTENDED").getD .null)
      ((rowGet (fr ++ [("TOTAL_APPOINTMENTS", Value.num 0)])
        "TOTAL_APPOINTMENTS").getD .null) = .null := by
    rw [hr2T]
    rcases hr2A with h | h <;> rw [h] <;> simp [vdiv]
  refine ⟨_, rfl, ?_, ?_, ?_⟩
  · simp only [Function.comp_apply]
    rw [← hfr, htotal]
    refine rowGet_append_single_ne _ _ _ _ (by simp) |>.trans ?_
    refine rowGet_append_single_ne _ _ _ _ (by simp) |>.trans ?_
    exact hr2T
  · simp only [Function.comp_apply]
    rw [← hfr, htotal, hARcell]
    rw [rowGet_append_single_ne _ _ _ _ (by simp)]
    rw [rowGet_append_of_forall_ne]
    · simp [rowGet]
    · intro p hp
      rcases List.mem_append.mp hp with hp | hp
      · exact hARfr p hp
      · simp only [List.mem_singleton] at hp
        subst hp
        simp
  · simp only [Function.comp_apply]
    rw [← hfr, htotal, hARcell]
    have hr3D : rowGet ((fr ++ [("TOTAL_APPOINTMENTS", Value.num 0)]) ++
        [("ATTENDED_RATE", Value.null)]) "DID_NOT_ATTEND" = none ∨
        rowGet ((fr ++ [("TOTAL_APPOINTMENTS", Value.num 0)]) ++
        [("ATTENDED_RATE", Value.null)]) "DID_NOT_ATTEND" = some (.num 0) := by
      rcases hr2D with h | h
      · left
        rw [rowGet_append_of_none _ _ _ h]
        simp [rowGet]
      · right
        exact rowGet_append_left _ _ _ _ h
    have hr3T : rowGet ((fr ++ [("TOTAL_APPOINTMENTS", Value.num 0)]) ++
        [("ATTENDED_RATE", Value.null)]) "TOTAL_APPOINTMENTS" = some (.num 0) :=
      rowGet_append_left _ _ _ _ hr2T
    have hDRcell : vdiv ((rowGet ((fr ++ [("TOTAL_APPOINTMENTS", Value.num 0)]) ++
        [("ATTENDED_RATE", Value.null)]) "DID_NOT_ATTEND").getD .null)
        ((rowGet ((fr ++ [("TOTAL_APPOINTMENTS", Value.num 0)]) ++
        [("ATTENDED_RATE", Value.null)]) "TOTAL_APPOINTMENTS").getD .null) = .null := by
      rw [hr3T]
      rcases hr3D with h | h <;> rw [h] <;> simp [vdiv]
    rw [hDRcell]
    rw [rowGet_append_of_forall_ne]
    · simp [rowGet]
    · intro p hp
      rcases List.mem_append.mp hp with hp | hp
      · rcases List.mem_append.mp hp with hp | hp
        · exact hDRfr p hp
        · simp only [List.mem_singleton] at hp
          subst hp
          simp
      · simp only [List.mem_singleton] at hp
        subst hp
        simp

/-- C7 witness: the zero-total behaviour on the concrete one-row table
`c7df`. -/
theorem C7_zero_total_rates_witness :
    ∃ r', c7out.rows[0]? = some r' ∧
      rowGet r' "TOTAL_APPOINTMENTS" = some (.num 0) ∧
      rowGet r' "ATTENDED_RATE" = some .null ∧
      rowGet r' "DID_NOT_ATTEND_RATE" = some .null :=
  C7_zero_total_rates c7df
    (of_decide_eq_true (by with_unfolding_all rfl))
    (of_decide_eq_true (by with_unfolding_all rfl))
    (of_decide_eq_true (by with_unfolding_all rfl))
    (of_decide_eq_true (by with_unfolding_all rfl))
    (of_decide_eq_true (by with_unfolding_all rfl))
    c7out (by with_unfolding_all rfl)
    0 [("ATTENDED", .null), ("DID_NOT_ATTEND", .num 0), ("UNKNOWN", .null)]
    (by with_unfolding_all rfl)
    (of_decide_eq_true (by with_unfolding_all rfl))

/-- Helper: reading the dimension cell of a row that starts with its zipped
two-component key. -/
theorem rowGet_two_key_zip (date d : String) (v0 v1 : Value) (rest : Row)
    (hne : d ≠ date) :
    rowGet (([date, d].zip [v0, v1]) ++ rest) d = some v1 := by
  simp [List.zip_cons_cons, rowGet, Ne.symm hne]

/-- Helper: specification of the batch fold — it appends, in order, one
dictionary entry per dimension, each carrying that dimension's summary. -/
theorem batch_fold_spec (df : DataFrame) (flag : Bool) :
    ∀ (dims : List String) (acc res : List (String × DataFrame)),
    dims.Nodup → (∀ d ∈ dims, d ∉ acc.map Prod.fst) →
    List.foldlM (fun acc c => do
      let s ← summarize_monthly_aggregate_appointments df (some [c]) flag
      return dictInsert acc c s) acc dims = some res →
    res.map Prod.fst = acc.map Prod.fst ++ dims ∧
    ∀ p ∈ res, p ∈ acc ∨
      summarize_monthly_aggregate_appointments df (some [p.1]) flag = some p.2 := by
  intro dims
  induction dims with
  | nil =>
      intro acc res _ _ hfold
      rw [List.foldlM_nil] at hfold
      rw [show (pure acc : Option (List (String × DataFrame))) = some acc from rfl,
        Option.some.injEq] at hfold
      subst hfold
      exact ⟨by simp, fun p hp => Or.inl hp⟩
  | cons d t ih =>
      intro acc res hnd hdisj hfold
      rw [List.foldlM_cons] at hfold
      cases hs : summarize_monthly_aggregate_appointments df (some [d]) flag with
      | none =>
          rw [hs] at hfold
          simp only [Option.bind_eq_bind, Option.none_bind] at hfold
          cases hfold
      | some sd =>
          rw [hs] at hfold
          simp only [Option.bind_eq_bind, Option.some_bind, Option.pure_def] at hfold
          have hins : dictInsert acc d sd = acc ++ [(d, sd)] := by
            rw [dictInsert, if_neg (hdisj d (List.mem_cons_self _ _))]
          rw [hins] at hfold
          rw [List.nodup_cons] at hnd
          have hdisj2 : ∀ e ∈ t, e ∉ (acc ++ [(d, sd)]).map Prod.fst := by
            intro e he
            rw [List.map_append, List.mem_append]
            rintro (hmem | hmem)
            · exact hdisj e (List.mem_cons_of_mem _ he) hmem
            · simp only [List.map_cons, List.map_nil, List.mem_singleton] at hmem
              subst hmem
              exact hnd.1 he
          obtain ⟨hmap, hmem⟩ := ih (acc ++ [(d, sd)]) res hnd.2 hdisj2 hfold
          constructor
          · rw [hmap, List.map_append]
            simp
          · intro p hp
            rcases hmem p hp with hin | hsum
            · rcases List.mem_append.mp hin with hin | hin
              · exact Or.inl hin
              · simp only [List.mem_singleton] at hin
                subst hin
                exact Or.inr hs
            · exact Or.inr hsum

/-- Helper: for a one-dimension summary, the distinct values of the
dimension column are exactly the non-null dimension values of input rows
whose date is also non-null (the rows pandas `groupby` keeps). -/
theorem dim_values_iff (pt : DataFrame) (d : String) (tailFun : List Value → Row)
    (hne : d ≠ "APPOINTMENT_MONTH_START_DATE") :
    ∀ v : Value,
      (∃ r' ∈ (groupKeysOf pt (summaryKeys [d])).map
          (fun k => (summaryKeys [d]).zip k ++ tailFun k),
        rowGet r' d = some v) ↔
      (∃ r ∈ pt.rows, (rowGet r d).getD .null = v ∧ v ≠ .null ∧
        (rowGet r "APPOINTMENT_MONTH_START_DATE").getD .null ≠ .null) := by
  intro v
  constructor
  · rintro ⟨r', hr', hv⟩
    rw [List.mem_map] at hr'
    obtain ⟨k, hk, rfl⟩ := hr'
    rw [groupKeysOf, List.mem_dedup, List.mem_map] at hk
    obtain ⟨r0, hr0, rfl⟩ := hk
    have hr0mem : r0 ∈ pt.rows := (List.mem_filter.mp hr0).1
    have hr0keys := (List.mem_filter.mp hr0).2
    simp only [keyHasNull, summaryKeys, List.any_cons, List.any_nil, Bool.or_false,
      Bool.not_eq_true', Bool.or_eq_false_iff, decide_eq_false_iff_not] at hr0keys
    rw [show keyOfRow (summaryKeys [d]) r0 =
        [(rowGet r0 "APPOINTMENT_MONTH_START_DATE").getD .null,
         (rowGet r0 d).getD .null] by simp [keyOfRow, summaryKeys],
      show (summaryKeys [d]) = ["APPOINTMENT_MONTH_START_DATE", d] from rfl,
      rowGet_two_key_zip _ _ _ _ _ hne, Option.some.injEq] at hv
    exact ⟨r0, hr0mem, hv, fun hc => hr0keys.2 (hv.trans hc), hr0keys.1⟩
  · rintro ⟨r, hr, hv, hvn, hdn⟩
    have hkept : r ∈ keptRows pt (summaryKeys [d]) := by
      refine List.mem_filter.mpr ⟨hr, ?_⟩
      simp only [keyHasNull, summaryKeys, List.any_cons, List.any_nil, Bool.or_false,
        Bool.not_eq_true', Bool.or_eq_false_iff, decide_eq_false_iff_not]
      exact ⟨hdn, fun hc => hvn (hv.symm.trans hc)⟩
    refine ⟨(summaryKeys [d]).zip (keyOfRow (summaryKeys [d]) r) ++
      tailFun (keyOfRow (summaryKeys [d]) r),
      List.mem_map_of_mem _ (by rw [groupKeysOf, List.mem_dedup]
                                exact List.mem_map_of_mem _ hkept), ?_⟩
    rw [show keyOfRow (summaryKeys [d]) r =
        [(rowGet r "APPOINTMENT_MONTH_START_DATE").getD .null,
         (rowGet r d).getD .null] by simp [keyOfRow, summaryKeys],
      show (summaryKeys [d]) = ["APPOINTMENT_MONTH_START_DATE", d] from rfl,
      rowGet_two_key_zip _ _ _ _ _ hne, hv]

/-- C8 counterexample: the pivoted table `c8pt` has `REGION_NAME` distinct
values {REGION1, null}, but the batch summary's `REGION_NAME` column only
contains REGION1 — the group-by dropped the null-region row, so the
distinct value sets are not equal as the claim states. -/
theorem C8_counterexample :
    batch_summarize_monthly_aggregate_appointments c8pt (some ["REGION_NAME"]) true =
      some [("REGION_NAME", c8summary)] ∧
    (Value.null ∈ c8pt.rows.map (fun r => (rowGet r "REGION_NAME").getD .null)) ∧
    ¬ (Value.null ∈ c8summary.rows.map (fun r => (rowGet r "REGION_NAME").getD .null)) :=
  ⟨by with_unfolding_all rfl, by decide, by decide⟩

/-- C8 (amended): the batch stage yields one entry per requested dimension,
keyed in input order, each entry the one-dimension summary with the same
rate flag; and each summary's dimension column's distinct values equal the
distinct non-null dimension values among pivoted rows whose date is also
non-null (the group-by drops rows with a missing grouping key). -/
theorem C8_batch_contract (pt : DataFrame) (dims : List String) (flag : Bool)
    (hnd : dims.Nodup)
    (hdate : "APPOINTMENT_MONTH_START_DATE" ∈ pt.cols)
    (hd : ∀ d ∈ dims, d ∈ pt.cols)
    (h2 : ∀ c ∈ aggTargets, c ∈ pt.cols)
    (hclean : ∀ d ∈ dims, d ≠ "APPOINTMENT_MONTH_START_DATE" ∧ d ∉ aggTargets ∧
      d ≠ "TOTAL_APPOINTMENTS" ∧ d ≠ "ATTENDED_RATE" ∧ d ≠ "DID_NOT_ATTEND_RATE") :
    ∀ res, batch_summarize_monthly_aggregate_appointments pt (some dims) flag = some res →
    res.map Prod.fst = dims ∧
    ∀ p ∈ res,
      summarize_monthly_aggregate_appointments pt (some [p.1]) flag = some p.2 ∧
      ∀ v : Value,
        (∃ r' ∈ p.2.rows, rowGet r' p.1 = some v) ↔
        (∃ r ∈ pt.rows, (rowGet r p.1).getD .null = v ∧ v ≠ .null ∧
          (rowGet r "APPOINTMENT_MONTH_START_DATE").getD .null ≠ .null) := by
  intro res hres
  rw [batch_summarize_monthly_aggregate_appointments] at hres
  obtain ⟨hmap, hmem⟩ := batch_fold_spec pt flag dims [] res hnd (by simp) hres
  rw [List.map_nil, List.nil_append] at hmap
  refine ⟨hmap, ?_⟩
  rintro ⟨d, s⟩ hp
  have hs : summarize_monthly_aggregate_appointments pt (some [d]) flag = some s := by
    rcases hmem _ hp with hin | hsum
    · cases hin
    · exact hsum
  have hddims : d ∈ dims := by
    rw [← hmap]
    exact List.mem_map_of_mem Prod.fst hp
  obtain ⟨hc1, hc2, hc3, hc4, hc5⟩ := hclean d hddims
  have h1d : ∀ c ∈ summaryKeys [d], c ∈ pt.cols := by
    intro c hc
    simp only [summaryKeys, List.mem_cons, List.mem_singleton, List.not_mem_nil,
      or_false] at hc
    rcases hc with rfl | rfl
    · exact hdate
    · exact hd _ hddims
  have h3d : ∀ c ∈ aggTargets, c ∉ summaryKeys [d] := by
    intro c hc
    simp only [summaryKeys, List.mem_cons, List.not_mem_nil, or_false]
    rintro (rfl | rfl)
    · simp [aggTargets] at hc
    · exact hc2 hc
  have h4d : "TOTAL_APPOINTMENTS" ∉ summaryKeys [d] := by
    simp only [summaryKeys, List.mem_cons, List.not_mem_nil, or_false]
    rintro (h | h)
    · exact absurd h (by decide)
    · exact hc3 h.symm
  have h5d : "ATTENDED_RATE" ∉ summaryKeys [d] := by
    simp only [summaryKeys, List.mem_cons, List.not_mem_nil, or_false]
    rintro (h | h)
    · exact absurd h (by decide)
    · exact hc4 h.symm
  have h6d : "DID_NOT_ATTEND_RATE" ∉ summaryKeys [d] := by
    simp only [summaryKeys, List.mem_cons, List.not_mem_nil, or_false]
    rintro (h | h)
    · exact absurd h (by decide)
    · exact hc5 h.symm
  refine ⟨hs, ?_⟩
  cases flag with
  | true =>
      have hshape := summarize_true_eq pt [d] h1d h2 h3d h4d h5d h6d
      rw [hs, Option.some.injEq] at hshape
      subst hshape
      exact dim_values_iff pt d _ hc1
  | false =>
      have hshape := summarize_false_eq pt [d] h1d h2 h3d
      rw [hs, Option.some.injEq] at hshape
      subst hshape
      exact dim_values_iff pt d _ hc1

/-- C8 witness: the amended contract instantiated at the concrete table
`c8pt` with the single dimension REGION_NAME. -/
theorem C8_batch_contract_witness :
    ([("REGION_NAME", c8summary)] : List (String × DataFrame)).map Prod.fst =
      ["REGION_NAME"] ∧
    ∀ p ∈ ([("REGION_NAME", c8summary)] : List (String × DataFrame)),
      summarize_monthly_aggregate_appointments c8pt (some [p.1]) true = some p.2 ∧
      ∀ v : Value,
        (∃ r' ∈ p.2.rows, rowGet r' p.1 = some v) ↔
        (∃ r ∈ c8pt.rows, (rowGet r p.1).getD .null = v ∧ v ≠ .null ∧
          (rowGet r "APPOINTMENT_MONTH_START_DATE").getD .null ≠ .null) :=
  C8_batch_contract c8pt ["REGION_NAME"] true (by decide) (by decide) (by decide)
    (by decide) (by decide) [("REGION_NAME", c8summary)] (by with_unfolding_all rfl)

end PandasPipeline
